import Mathlib

/-!
Verification development for the relm plugin-core SDK (Go).

The repository is a plugin SDK: per-contract interfaces (auth, storage,
cache, general-event), a single-slot plugin registry with lazy
initialization, a global JSON configuration store with typed getters, a
YAML-driven environment-variable loader, and C-ABI boundary shims that
decode foreign arguments, dispatch to the registered plugin and encode
results.  This file gives a shallow embedding of those parts in Lean:

* C strings crossing the boundary are `Option String` (`none` = NULL);
* byte buffers are `List Nat`;
* the process-global mutable state (registered plugin, lazy initializer,
  global config map) is threaded explicitly through each boundary call;
* Go's `encoding/json` is modeled by an executable `JValue` type with a
  fueled recursive-descent reader (`jsonParse`, validating the entire
  input like `json.Unmarshal` / `json.Valid` do) and a writer
  (`jsonEncode`, including Go's default HTML escaping of `<`, `>`, `&`);
* plugin implementations (which live outside this repository) are
  structures of pure functions; operations whose results may differ
  between invocations (lazy factories, `Initialize`, `Cleanup`) take an
  invocation counter so that re-invocation is observable.

File/IO side effects (YAML file discovery, stdout logging, C memory
management) are outside the embedding; where a modeled function performs
one in Go, a comment says so.
-/

namespace Relm

/-! ## JSON model (Go `encoding/json`) -/

/-- A decoded JSON value, as produced by `json.Unmarshal` into
`interface\x7b\x7d` (objects become maps, arrays slices, numbers keep
their lexeme here instead of Go's float64). -/
inductive JValue where
  | null : JValue
  | bool : Bool → JValue
  | num : String → JValue
  | str : String → JValue
  | arr : List JValue → JValue
  | obj : List (String × JValue) → JValue

/-- The `\x7b` character, kept out of literals. -/
def lbrace : Char := Char.ofNat 123

/-- The `\x7d` character, kept out of literals. -/
def rbrace : Char := Char.ofNat 125

/-- Whitespace accepted between JSON tokens. -/
def jsonWs (c : Char) : Bool := c == ' ' || c == '\t' || c == '\n' || c == '\r'

/-- Drop leading JSON whitespace. -/
def dropWs : List Char → List Char
  | [] => []
  | c :: cs => if jsonWs c then dropWs cs else c :: cs

/-- Value of one hexadecimal digit, if it is one. -/
def hexDigitVal (c : Char) : Option Nat :=
  if '0' ≤ c && c ≤ '9' then some (c.toNat - 48)
  else if 'a' ≤ c && c ≤ 'f' then some (c.toNat - 87)
  else if 'A' ≤ c && c ≤ 'F' then some (c.toNat - 55)
  else none

/-- Read the body of a JSON string after the opening quote, handling the
escapes Go's scanner accepts and rejecting raw control characters.
Returns the decoded text and the input after the closing quote. -/
def readStrBody (fuel : Nat) (cs : List Char) : Option (String × List Char) :=
  match fuel, cs with
  | 0, _ => none
  | _, [] => none
  | fuel + 1, c :: cs =>
    if c = '"' then
      some ("", cs)
    else if c = '\\' then
      match cs with
      | [] => none
      | e :: cs2 =>
        let push (ch : Char) (rest : List Char) : Option (String × List Char) :=
          match readStrBody fuel rest with
          | some (s, r) => some (String.singleton ch ++ s, r)
          | none => none
        if e = '"' then push '"' cs2
        else if e = '\\' then push '\\' cs2
        else if e = '/' then push '/' cs2
        else if e = 'b' then push (Char.ofNat 8) cs2
        else if e = 'f' then push (Char.ofNat 12) cs2
        else if e = 'n' then push '\n' cs2
        else if e = 'r' then push '\r' cs2
        else if e = 't' then push '\t' cs2
        else if e = 'u' then
          match cs2 with
          | h1 :: h2 :: h3 :: h4 :: cs3 =>
            match hexDigitVal h1, hexDigitVal h2, hexDigitVal h3, hexDigitVal h4 with
            | some a, some b, some g, some d =>
              push (Char.ofNat (((a * 16 + b) * 16 + g) * 16 + d)) cs3
            | _, _, _, _ => none
          | _ => none
        else none
    else if c.toNat < 32 then
      none
    else
      match readStrBody fuel cs with
      | some (s, r) => some (String.singleton c ++ s, r)
      | none => none

/-- Split off a maximal run of decimal digits. -/
def spanDigits : List Char → List Char × List Char
  | [] => ([], [])
  | c :: cs =>
    if c.isDigit then
      let (ds, r) := spanDigits cs
      (c :: ds, r)
    else
      ([], c :: cs)

/-- Read a JSON number, keeping its lexeme.  Mirrors the grammar Go's
scanner enforces: optional minus, an integer part without superfluous
leading zero, optional fraction and exponent. -/
def readNumLex (cs : List Char) : Option (String × List Char) :=
  let (sign, cs1) : List Char × List Char :=
    match cs with
    | '-' :: r => (['-'], r)
    | _ => ([], cs)
  match cs1 with
  | [] => none
  | c :: cs2 =>
    if ¬ c.isDigit then none
    else
      let (ipart, rest) : List Char × List Char :=
        if c = '0' then ([c], cs2)
        else
          let (ds, r) := spanDigits cs2
          (c :: ds, r)
      let (fpart, rest2) : List Char × List Char :=
        match rest with
        | '.' :: r =>
          match spanDigits r with
          | ([], _) => ([], '.' :: r)
          | (ds, r2) => ('.' :: ds, r2)
        | _ => ([], rest)
      if fpart.isEmpty && (match rest with | '.' :: _ => True | _ => False) then
        none
      else
        let (epart, rest3) : List Char × List Char :=
          match rest2 with
          | e :: r =>
            if e = 'e' || e = 'E' then
              let (es, r1) : List Char × List Char :=
                match r with
                | '+' :: r2 => (['+'], r2)
                | '-' :: r2 => (['-'], r2)
                | _ => ([], r)
              match spanDigits r1 with
              | ([], _) => ([], rest2)
              | (ds, r2) => (e :: (es ++ ds), r2)
            else ([], rest2)
          | [] => ([], rest2)
        some (String.mk (sign ++ ipart ++ fpart ++ epart), rest3)

mutual

/-- Read one JSON value (fueled recursive descent over the scanner
grammar of Go's `encoding/json`). -/
def readVal (fuel : Nat) (cs : List Char) : Option (JValue × List Char) :=
  match fuel with
  | 0 => none
  | fuel + 1 =>
    match dropWs cs with
    | [] => none
    | c :: rest =>
      if c = '"' then
        match readStrBody (rest.length + 1) rest with
        | some (s, r) => some (.str s, r)
        | none => none
      else if c = '[' then
        match dropWs rest with
        | ']' :: r => some (.arr [], r)
        | other => match readElems fuel other with
          | some (es, r) => some (.arr es, r)
          | none => none
      else if c = lbrace then
        match dropWs rest with
        | d :: r =>
          if d = rbrace then some (.obj [], r)
          else match readMembers fuel (d :: r) with
            | some (ms, r2) => some (.obj ms, r2)
            | none => none
        | [] => none
      else
        match c :: rest with
        | 'n' :: 'u' :: 'l' :: 'l' :: r => some (.null, r)
        | 't' :: 'r' :: 'u' :: 'e' :: r => some (.bool true, r)
        | 'f' :: 'a' :: 'l' :: 's' :: 'e' :: r => some (.bool false, r)
        | other =>
          match readNumLex other with
          | some (lex, r) => some (.num lex, r)
          | none => none

/-- Read one-or-more comma-separated array elements up to `]`. -/
def readElems (fuel : Nat) (cs : List Char) : Option (List JValue × List Char) :=
  match fuel with
  | 0 => none
  | fuel + 1 =>
    match readVal fuel cs with
    | none => none
    | some (v, r) =>
      match dropWs r with
      | ',' :: r2 =>
        match readElems fuel r2 with
        | some (vs, r3) => some (v :: vs, r3)
        | none => none
      | ']' :: r2 => some ([v], r2)
      | _ => none

/-- Read one-or-more comma-separated object members up to the closing
brace. -/
def readMembers (fuel : Nat) (cs : List Char) : Option (List (String × JValue) × List Char) :=
  match fuel with
  | 0 => none
  | fuel + 1 =>
    match dropWs cs with
    | '"' :: r =>
      match readStrBody (r.length + 1) r with
      | none => none
      | some (k, r1) =>
        match dropWs r1 with
        | ':' :: r2 =>
          match readVal fuel r2 with
          | none => none
          | some (v, r3) =>
            match dropWs r3 with
            | ',' :: r4 =>
              match readMembers fuel r4 with
              | some (ms, r5) => some ((k, v) :: ms, r5)
              | none => none
            | d :: r4 =>
              if d = rbrace then some ([(k, v)], r4) else none
            | [] => none
        | _ => none
    | _ => none

end

/-- Parse a complete JSON document.  Like `json.Unmarshal` (which calls
`checkValid` on the whole input before decoding anything) this fails on
empty input, on a syntax error anywhere, and on trailing non-whitespace. -/
def jsonParse (s : String) : Option JValue :=
  match readVal (s.data.length + 1) s.data with
  | some (v, rest) => if (dropWs rest).isEmpty then some v else none
  | none => none

/-- Go's `json.Valid`. -/
def jsonValid (s : String) : Bool := (jsonParse s).isSome

/-- One char of Go's JSON string encoder output: the standard escapes
plus Go's default HTML escaping of `<`, `>` and `&`. -/
def encChar (c : Char) : String :=
  if c = '"' then "\\\""
  else if c = '\\' then "\\\\"
  else if c = '\n' then "\\n"
  else if c = '\r' then "\\r"
  else if c = '\t' then "\\t"
  else if c = '<' then "\\u003c"
  else if c = '>' then "\\u003e"
  else if c = '&' then "\\u0026"
  else if c.toNat < 32 then
    let lo := c.toNat % 16
    let hi := c.toNat / 16
    let dig (n : Nat) : Char := if n < 10 then Char.ofNat (48 + n) else Char.ofNat (87 + n)
    "\\u00" ++ String.singleton (dig hi) ++ String.singleton (dig lo)
  else String.singleton c

/-- Go's JSON encoding of a string value. -/
def encStr (s : String) : String :=
  "\"" ++ String.join (s.data.map encChar) ++ "\""

mutual

/-- Go's `json.Marshal` on a decoded value (object member order is the
model's list order; Go sorts map keys, which no claim depends on). -/
def jsonEncode : JValue → String
  | .null => "null"
  | .bool b => if b then "true" else "false"
  | .num lex => lex
  | .str s => encStr s
  | .arr es => "[" ++ encElems es ++ "]"
  | .obj ms => String.singleton lbrace ++ encMembers ms ++ String.singleton rbrace

/-- Comma-joined encoded array elements. -/
def encElems : List JValue → String
  | [] => ""
  | [v] => jsonEncode v
  | v :: vs => jsonEncode v ++ "," ++ encElems vs

/-- Comma-joined encoded object members. -/
def encMembers : List (String × JValue) → String
  | [] => ""
  | [(k, v)] => encStr k ++ ":" ++ jsonEncode v
  | (k, v) :: ms => encStr k ++ ":" ++ jsonEncode v ++ "," ++ encMembers ms

end

/-- Decimal digits to a natural number. -/
def digitsToNat (cs : List Char) : Nat :=
  cs.foldl (fun a c => a * 10 + (c.toNat - 48)) 0

/-- One char of `strings.ToLower`, on the ASCII range the modeled code
exercises. -/
def lowerChar (c : Char) : Char :=
  if 'A' ≤ c && c ≤ 'Z' then Char.ofNat (c.toNat + 32) else c

/-- One char of `strings.ToUpper`, on the ASCII range. -/
def upperChar (c : Char) : Char :=
  if 'a' ≤ c && c ≤ 'z' then Char.ofNat (c.toNat - 32) else c

/-- `strings.ToLower` (ASCII). -/
def strLower (s : String) : String := String.mk (s.data.map lowerChar)

/-- `strings.ToUpper` (ASCII). -/
def strUpper (s : String) : String := String.mk (s.data.map upperChar)

/-- A JSON number lexeme as an unsigned integer, as `json.Unmarshal`
into a `uint64` field requires (fractions, exponents and signs fail). -/
def jnumToNat (lex : String) : Option Nat :=
  if lex.data ≠ [] && lex.data.all Char.isDigit then some (digitsToNat lex.data)
  else none

/-! ## Association-list maps

Go maps crossing into the model are association lists with first-match
lookup; `assocSet` replaces an existing binding in place, which is all
the modeled code observes of Go's `m[k] = v`. -/

/-- Lookup in an association list (first match). -/
def assocGet (m : List (String × String)) (k : String) : Option String :=
  match m with
  | [] => none
  | (k2, v) :: rest => if k2 = k then some v else assocGet rest k

/-- Lookup in a decoded-JSON object. -/
def jGet (m : List (String × JValue)) (k : String) : Option JValue :=
  match m with
  | [] => none
  | (k2, v) :: rest => if k2 = k then some v else jGet rest k

/-- Insert-or-replace in an association list. -/
def assocSet (m : List (String × String)) (k v : String) : List (String × String) :=
  match m with
  | [] => [(k, v)]
  | (k2, w) :: rest => if k2 = k then (k2, v) :: rest else (k2, w) :: assocSet rest k v

namespace Config

/-! ## `config` package: the process-global JSON config store
(src/config/config.go). -/

/-- The decoded members of `globalConfig` (`map[string]interface\x7b\x7d`). -/
def ConfigMap := List (String × JValue)

/-- Go's `strconv.ParseInt(v, 10, 64)`: optional sign, at least one
digit, nothing else, and the result must fit in an `int64`. -/
def parseInt64 (s : String) : Option Int :=
  let (neg, ds) : Bool × List Char :=
    match s.data with
    | '-' :: r => (true, r)
    | '+' :: r => (false, r)
    | r => (false, r)
  if ds = [] || ¬ ds.all Char.isDigit then none
  else
    let n : Int := (digitsToNat ds : Nat)
    let v : Int := if neg then -n else n
    if -(2 ^ 63) ≤ v && v < 2 ^ 63 then some v else none

/-- `SetConfigFromJSON`: rejects the empty string, then parses into the
global map.  `json.Unmarshal` validates the whole document before
writing anything, so on failure the previous map survives; decoding a
JSON `null` into a Go map is a no-op; any other non-object document is a
type error.  Returns the new value of `globalConfig` on success. -/
def SetConfigFromJSON (cur : Option ConfigMap) (configJSON : String) :
    Except String (Option ConfigMap) :=
  if configJSON = "" then .error "empty config JSON"
  else
    match jsonParse configJSON with
    | none => .error "failed to parse config JSON"
    | some (.obj ms) => .ok (some ms)
    | some .null => .ok cur
    | some _ => .error "failed to parse config JSON"

/-- The string value of `key` inside the named section of the global
config, if the section is an object and the value is a string — the
pattern both section checks of `GetConfigValue` follow.  A non-string
value at `key` falls through exactly like a missing key. -/
def sectionValue (cfg : Option ConfigMap) (section_ key : String) : Option String :=
  match cfg with
  | none => none
  | some ms =>
    match jGet ms section_ with
    | some (.obj sec) =>
      match jGet sec key with
      | some (.str v) => some v
      | _ => none
    | _ => none

/-- `GetConfigValue`: the `plugin_config` section first, then
`server_config`; `(\"\", false)` is modeled as `none`. -/
def GetConfigValue (cfg : Option ConfigMap) (key : String) : Option String :=
  match sectionValue cfg "plugin_config" key with
  | some v => some v
  | none => sectionValue cfg "server_config" key

/-- `GetPluginConfigValue`: the `plugin_config` section only. -/
def GetPluginConfigValue (cfg : Option ConfigMap) (key : String) : Option String :=
  sectionValue cfg "plugin_config" key

/-- `GetServerConfigValue`: the `server_config` section only. -/
def GetServerConfigValue (cfg : Option ConfigMap) (key : String) : Option String :=
  sectionValue cfg "server_config" key

/-- The truthiness test shared by every boolean getter in the package. -/
def boolTokens (v : String) : Bool :=
  let w := strLower v
  w == "true" || w == "1" || w == "yes" || w == "on"

/-- `GetBool` (package-level, over the global config). -/
def GetBool (cfg : Option ConfigMap) (key : String) : Bool :=
  match GetConfigValue cfg key with
  | some v => boolTokens v
  | none => false

/-- `GetInt` (package-level): `strconv.ParseInt` on the found value, a
"not found" error otherwise. -/
def GetInt (cfg : Option ConfigMap) (key : String) : Except String Int :=
  match GetConfigValue cfg key with
  | some v =>
    match parseInt64 v with
    | some n => .ok n
    | none => .error "invalid syntax"
  | none => .error ("configuration '" ++ key ++ "' not found")

/-- `GetOrDefault` (package-level). -/
def GetOrDefault (cfg : Option ConfigMap) (key defaultValue : String) : String :=
  match GetConfigValue cfg key with
  | some v => v
  | none => defaultValue

end Config

namespace EnvConfig

/-! ## Environment-variable configuration (the `config` helpers shipped
with the general-plugin revision of the package, src/general/export.go's
sibling file). -/

/-- The process environment: name/value pairs; a variable can be present
with an empty value, which `os.Getenv` cannot distinguish from absent. -/
def EnvMap := List (String × String)

/-- `os.Getenv`. -/
def getenv (env : EnvMap) (name : String) : String :=
  match assocGet env name with
  | some v => v
  | none => ""

/-- `os.Setenv`. -/
def setenv (env : EnvMap) (name v : String) : EnvMap :=
  assocSet env name v

/-- The `UPPER(pluginType)_UPPER(key)` variable name every lookup
composes (`strings.ToUpper` is modeled on ASCII). -/
def envVarName (pluginType key : String) : String :=
  strUpper pluginType ++ "_" ++ strUpper key

/-- `GetConfigOptional`: the raw environment value, empty when unset. -/
def GetConfigOptional (env : EnvMap) (pluginType key : String) : String :=
  getenv env (envVarName pluginType key)

/-- `GetConfig`: like `GetConfigOptional` but an empty value is a
"not found" error. -/
def GetConfig (env : EnvMap) (pluginType key : String) : Except String String :=
  let v := GetConfigOptional env pluginType key
  if v = "" then .error ("configuration '" ++ key ++ "' not found") else .ok v

/-- `GetConfigBool`: `true`/`1`/`yes`/`on` case-insensitively. -/
def GetConfigBool (env : EnvMap) (pluginType key : String) : Bool :=
  Config.boolTokens (GetConfigOptional env pluginType key)

/-- `GetConfigOrDefault`. -/
def GetConfigOrDefault (env : EnvMap) (pluginType key defaultValue : String) : String :=
  let v := GetConfigOptional env pluginType key
  if v = "" then defaultValue else v

end EnvConfig

namespace Yaml

/-! ## YAML file loader (`types.LoadConfigAndSetEnvVars`, the file the
`config` package re-exports).  File discovery and `yaml.Unmarshal` are
IO; the model starts from the decoded `RealmConfig`. -/

/-- One `name`/`value` config item of a plugin definition. -/
structure PluginConfigItem where
  name : String
  value : String

/-- One plugin definition of the `plugins:` array. -/
structure PluginDefinition where
  type : String
  enabled : Bool
  path : String
  config : List PluginConfigItem

/-- `strings.EqualFold`, modeled on ASCII case folding. -/
def eqFold (a b : String) : Bool := strLower a == strLower b

/-- The per-definition loop body: set `UPPER(pluginType)_UPPER(name)`
for each item, but only when `os.Getenv` currently returns the empty
string for it. -/
def applyConfigItems (pluginType : String) (items : List PluginConfigItem)
    (env : EnvConfig.EnvMap) : EnvConfig.EnvMap :=
  match items with
  | [] => env
  | item :: rest =>
    let envVar := EnvConfig.envVarName pluginType item.name
    let env2 := if EnvConfig.getenv env envVar = "" then EnvConfig.setenv env envVar item.value else env
    applyConfigItems pluginType rest env2

/-- `LoadConfigAndSetEnvVars` after the YAML is decoded: walk the
definitions, use the first whose `type` matches case-insensitively
(`break` after it), and apply its config items to the environment. -/
def LoadConfigAndSetEnvVars (pluginType : String) (plugins : List PluginDefinition)
    (env : EnvConfig.EnvMap) : EnvConfig.EnvMap :=
  match plugins with
  | [] => env
  | p :: rest =>
    if eqFold p.type pluginType then applyConfigItems pluginType p.config env
    else LoadConfigAndSetEnvVars pluginType rest env

end Yaml

/-! ## FFI result envelope (the C `FFIResult` struct) -/

/-- The envelope crossing the boundary: success flag, an optional owned
payload buffer (JSON bytes, `none` when `data_len` is 0) and an optional
owned error string (`none` for the NULL pointer). -/
structure FFIResult where
  success : Bool
  data : Option String
  errorMsg : Option String
deriving Repr, DecidableEq

/-- `cString`: Go's helper maps the empty string to the NULL pointer. -/
def cString (s : String) : Option String :=
  if s = "" then none else some s

/-- `goString`: a NULL pointer decodes to the empty string. -/
def goString (p : Option String) : String :=
  match p with
  | some s => s
  | none => ""

/-- `newSuccessResult`: success with the payload bytes (empty payload
leaves the buffer NULL). -/
def newSuccessResult (payload : String) : FFIResult :=
  { success := true
    data := if payload = "" then none else some payload
    errorMsg := none }

/-- `newSuccessJSONResult`: marshal and wrap (`json.Marshal` cannot fail
on an already-decoded value, so the serialize-error branch is dead in
the model). -/
def newSuccessJSONResult (v : JValue) : FFIResult :=
  newSuccessResult (jsonEncode v)

/-- `newErrorResult`: failure carrying the message. -/
def newErrorResult (msg : String) : FFIResult :=
  { success := false, data := none, errorMsg := cString msg }

/-- `newSuccessEmptyResult`. -/
def newSuccessEmptyResult : FFIResult :=
  { success := true, data := none, errorMsg := none }

namespace Auth

/-! ## Auth contract (src/auth/interface.go, superset era) and its
boundary shims (src/unnamed/part_001).

Plugin operations are modeled as pure functions; result payloads that
the boundary only marshals (`UserDetails`, `OAuthClient`, ...) are
decoded JSON values, and request payloads that the boundary decodes for
the plugin are likewise passed as decoded JSON values (the mapping into
the external `types` structs is not observable here). -/

/-- An `AuthPlugin` implementation.  Fallible operations return
`Except String α`, the error being what `err.Error()` renders. -/
structure AuthPlugin where
  CheckUserAccess : String → String → String → Except String Bool
  CreateUser : JValue → Except String JValue
  GetUserDetails : String → Except String JValue
  GetUserDetailsByEmail : String → Except String JValue
  GetPluginInfo : Except String JValue
  ProviderName : String
  HealthCheck : Bool
  ValidateUser : String → Bool
  GetUserGroups : String → Except String (List String)
  SearchUsers : String → Int → Except String JValue
  DeleteUser : String → Except String Unit
  GetUserPermissions : String → Except String JValue
  CreateOAuthClient : JValue → Except String JValue
  GetOAuthClient : String → Except String JValue
  UpdateOAuthClient : String → JValue → Except String JValue
  DeleteOAuthClient : String → Except String Unit
  ListOAuthClients : Option Int → Option Int → Except String JValue
  ListUserAuthorizedClients : String → Except String JValue
  RevokeUserClientAuthorization : String → String → Except String Unit
  Cleanup : Except String Unit

/-- The auth package's process-global state: the registered plugin, the
lazy initializer, and the `config` package's global map.  A Go factory
closure may behave differently on each call, so the model gives the
initializer the number of earlier invocations (`initCalls`, bookkeeping
that exists only in the model). -/
structure AuthState where
  registered : Option AuthPlugin
  pluginInitializer : Option (Nat → Option AuthPlugin × Option String)
  initCalls : Nat
  cfg : Option Config.ConfigMap

/-- `GetRegisteredPlugin`: lazily invoke the factory when the slot is
empty; register only on `err == nil && plugin != nil`; any factory error
is dropped on the floor. -/
def GetRegisteredPlugin (st : AuthState) : Option AuthPlugin × AuthState :=
  match st.registered with
  | some p => (some p, st)
  | none =>
    match st.pluginInitializer with
    | none => (none, st)
    | some factory =>
      match factory st.initCalls with
      | (some p, none) =>
        (some p, { st with registered := some p, initCalls := st.initCalls + 1 })
      | (some _, some _) => (none, { st with initCalls := st.initCalls + 1 })
      | (none, _) => (none, { st with initCalls := st.initCalls + 1 })

/-- `initialize_with_config`: push the blob into the config store (on
failure, report false with everything untouched), then report whether a
plugin is registered (possibly lazily initializing it). -/
def initialize_with_config (st : AuthState) (configJson : Option String) :
    Bool × AuthState :=
  let configStr := goString configJson
  match Config.SetConfigFromJSON st.cfg configStr with
  | .error _ => (false, st)
  | .ok newCfg =>
    let st2 := { st with cfg := newCfg }
    let (p, st3) := GetRegisteredPlugin st2
    (p.isSome, st3)

/-- `check_user_access`: plugin lookup, then the NULL check on all three
arguments, then dispatch. -/
def check_user_access (st : AuthState) (userID resource action : Option String) :
    FFIResult × AuthState :=
  match GetRegisteredPlugin st with
  | (none, st2) => (newErrorResult "No plugin registered", st2)
  | (some p, st2) =>
    if userID = none || resource = none || action = none then
      (newErrorResult "userID, resource, and action cannot be null", st2)
    else
      match p.CheckUserAccess (goString userID) (goString resource) (goString action) with
      | .error e => (newErrorResult ("Failed to check user access: " ++ e), st2)
      | .ok allowed => (newSuccessJSONResult (.bool allowed), st2)

/-- `create_user`: plugin lookup, NULL check, JSON decode of the request
(parse failure reported before the plugin is invoked), dispatch. -/
def create_user (st : AuthState) (request : Option String) : FFIResult × AuthState :=
  match GetRegisteredPlugin st with
  | (none, st2) => (newErrorResult "No plugin registered", st2)
  | (some p, st2) =>
    if request = none then (newErrorResult "request cannot be null", st2)
    else
      match jsonParse (goString request) with
      | none => (newErrorResult "Failed to parse request JSON: invalid character", st2)
      | some req =>
        match p.CreateUser req with
        | .error e => (newErrorResult ("Failed to create user: " ++ e), st2)
        | .ok details => (newSuccessJSONResult details, st2)

/-- `get_user_details`. -/
def get_user_details (st : AuthState) (userID : Option String) : FFIResult × AuthState :=
  match GetRegisteredPlugin st with
  | (none, st2) => (newErrorResult "No plugin registered", st2)
  | (some p, st2) =>
    if userID = none then (newErrorResult "userID cannot be null", st2)
    else
      match p.GetUserDetails (goString userID) with
      | .error e => (newErrorResult ("Failed to get user details: " ++ e), st2)
      | .ok details => (newSuccessJSONResult details, st2)

/-- `get_user_details_by_email`. -/
def get_user_details_by_email (st : AuthState) (email : Option String) :
    FFIResult × AuthState :=
  match GetRegisteredPlugin st with
  | (none, st2) => (newErrorResult "No plugin registered", st2)
  | (some p, st2) =>
    if email = none then (newErrorResult "email cannot be null", st2)
    else
      match p.GetUserDetailsByEmail (goString email) with
      | .error e => (newErrorResult ("Failed to get user details by email: " ++ e), st2)
      | .ok details => (newSuccessJSONResult details, st2)

/-- `get_plugin_info`. -/
def get_plugin_info (st : AuthState) : FFIResult × AuthState :=
  match GetRegisteredPlugin st with
  | (none, st2) => (newErrorResult "No plugin registered", st2)
  | (some p, st2) =>
    match p.GetPluginInfo with
    | .error e => (newErrorResult ("Failed to get plugin info: " ++ e), st2)
    | .ok info => (newSuccessJSONResult info, st2)

/-- `provider_name`: the scalar sentinel is the string "unknown". -/
def provider_name (st : AuthState) : Option String × AuthState :=
  match GetRegisteredPlugin st with
  | (none, st2) => (cString "unknown", st2)
  | (some p, st2) => (cString p.ProviderName, st2)

/-- `health_check`. -/
def health_check (st : AuthState) : Bool × AuthState :=
  match GetRegisteredPlugin st with
  | (none, st2) => (false, st2)
  | (some p, st2) => (p.HealthCheck, st2)

/-- `validate_user`: a NULL userID short-circuits to false. -/
def validate_user (st : AuthState) (userID : Option String) : Bool × AuthState :=
  match GetRegisteredPlugin st with
  | (none, st2) => (false, st2)
  | (some p, st2) =>
    if userID = none then (false, st2)
    else (p.ValidateUser (goString userID), st2)

/-- `get_user_groups`. -/
def get_user_groups (st : AuthState) (userID : Option String) : FFIResult × AuthState :=
  match GetRegisteredPlugin st with
  | (none, st2) => (newErrorResult "No plugin registered", st2)
  | (some p, st2) =>
    if userID = none then (newErrorResult "userID cannot be null", st2)
    else
      match p.GetUserGroups (goString userID) with
      | .error e => (newErrorResult ("Failed to get user groups: " ++ e), st2)
      | .ok groups => (newSuccessJSONResult (.arr (groups.map .str)), st2)

/-- `search_users`. -/
def search_users (st : AuthState) (query : Option String) (limit : Int) :
    FFIResult × AuthState :=
  match GetRegisteredPlugin st with
  | (none, st2) => (newErrorResult "No plugin registered", st2)
  | (some p, st2) =>
    if query = none then (newErrorResult "query cannot be null", st2)
    else
      match p.SearchUsers (goString query) limit with
      | .error e => (newErrorResult ("Failed to search users: " ++ e), st2)
      | .ok users => (newSuccessJSONResult users, st2)

/-- `delete_user`. -/
def delete_user (st : AuthState) (userID : Option String) : FFIResult × AuthState :=
  match GetRegisteredPlugin st with
  | (none, st2) => (newErrorResult "No plugin registered", st2)
  | (some p, st2) =>
    if userID = none then (newErrorResult "userID cannot be null", st2)
    else
      match p.DeleteUser (goString userID) with
      | .error e => (newErrorResult ("Failed to delete user: " ++ e), st2)
      | .ok _ => (newSuccessEmptyResult, st2)

/-- `get_user_permissions` (exported by the earlier revision of the same
package, src/unnamed/part_000). -/
def get_user_permissions (st : AuthState) (userID : Option String) :
    FFIResult × AuthState :=
  match GetRegisteredPlugin st with
  | (none, st2) => (newErrorResult "No plugin registered", st2)
  | (some p, st2) =>
    if userID = none then (newErrorResult "userID cannot be null", st2)
    else
      match p.GetUserPermissions (goString userID) with
      | .error e => (newErrorResult ("Failed to get user permissions: " ++ e), st2)
      | .ok permissions => (newSuccessJSONResult permissions, st2)

/-- `cleanup_plugin`: true exactly when a plugin is present and its
`Cleanup` returns no error. -/
def cleanup_plugin (st : AuthState) : Bool × AuthState :=
  match GetRegisteredPlugin st with
  | (none, st2) => (false, st2)
  | (some p, st2) =>
    match p.Cleanup with
    | .error _ => (false, st2)
    | .ok _ => (true, st2)

/-- `create_oauth_client`. -/
def create_oauth_client (st : AuthState) (request : Option String) :
    FFIResult × AuthState :=
  match GetRegisteredPlugin st with
  | (none, st2) => (newErrorResult "No plugin registered", st2)
  | (some p, st2) =>
    if request = none then (newErrorResult "request cannot be null", st2)
    else
      match jsonParse (goString request) with
      | none => (newErrorResult "Failed to parse request JSON: invalid character", st2)
      | some req =>
        match p.CreateOAuthClient req with
        | .error e => (newErrorResult ("Failed to create OAuth client: " ++ e), st2)
        | .ok client => (newSuccessJSONResult client, st2)

/-- `get_oauth_client`. -/
def get_oauth_client (st : AuthState) (clientID : Option String) :
    FFIResult × AuthState :=
  match GetRegisteredPlugin st with
  | (none, st2) => (newErrorResult "No plugin registered", st2)
  | (some p, st2) =>
    if clientID = none then (newErrorResult "clientID cannot be null", st2)
    else
      match p.GetOAuthClient (goString clientID) with
      | .error e => (newErrorResult ("Failed to get OAuth client: " ++ e), st2)
      | .ok client => (newSuccessJSONResult client, st2)

/-- `update_oauth_client`: both arguments share one NULL check. -/
def update_oauth_client (st : AuthState) (clientID request : Option String) :
    FFIResult × AuthState :=
  match GetRegisteredPlugin st with
  | (none, st2) => (newErrorResult "No plugin registered", st2)
  | (some p, st2) =>
    if clientID = none || request = none then
      (newErrorResult "clientID and request cannot be null", st2)
    else
      match jsonParse (goString request) with
      | none => (newErrorResult "Failed to parse request JSON: invalid character", st2)
      | some req =>
        match p.UpdateOAuthClient (goString clientID) req with
        | .error e => (newErrorResult ("Failed to update OAuth client: " ++ e), st2)
        | .ok client => (newSuccessJSONResult client, st2)

/-- `delete_oauth_client`. -/
def delete_oauth_client (st : AuthState) (clientID : Option String) :
    FFIResult × AuthState :=
  match GetRegisteredPlugin st with
  | (none, st2) => (newErrorResult "No plugin registered", st2)
  | (some p, st2) =>
    if clientID = none then (newErrorResult "clientID cannot be null", st2)
    else
      match p.DeleteOAuthClient (goString clientID) with
      | .error e => (newErrorResult ("Failed to delete OAuth client: " ++ e), st2)
      | .ok _ => (newSuccessEmptyResult, st2)

/-- `list_oauth_clients`: negative C ints decode as absent pagination. -/
def list_oauth_clients (st : AuthState) (limit offset : Int) : FFIResult × AuthState :=
  match GetRegisteredPlugin st with
  | (none, st2) => (newErrorResult "No plugin registered", st2)
  | (some p, st2) =>
    let limitPtr := if 0 ≤ limit then some limit else none
    let offsetPtr := if 0 ≤ offset then some offset else none
    match p.ListOAuthClients limitPtr offsetPtr with
    | .error e => (newErrorResult ("Failed to list OAuth clients: " ++ e), st2)
    | .ok clients => (newSuccessJSONResult clients, st2)

/-- `list_user_authorized_clients`. -/
def list_user_authorized_clients (st : AuthState) (userID : Option String) :
    FFIResult × AuthState :=
  match GetRegisteredPlugin st with
  | (none, st2) => (newErrorResult "No plugin registered", st2)
  | (some p, st2) =>
    if userID = none then (newErrorResult "userID cannot be null", st2)
    else
      match p.ListUserAuthorizedClients (goString userID) with
      | .error e => (newErrorResult ("Failed to list user authorized clients: " ++ e), st2)
      | .ok clients => (newSuccessJSONResult clients, st2)

/-- `revoke_user_client_authorization`: both arguments share one NULL
check. -/
def revoke_user_client_authorization (st : AuthState) (userID clientID : Option String) :
    FFIResult × AuthState :=
  match GetRegisteredPlugin st with
  | (none, st2) => (newErrorResult "No plugin registered", st2)
  | (some p, st2) =>
    if userID = none || clientID = none then
      (newErrorResult "userID and clientID cannot be null", st2)
    else
      match p.RevokeUserClientAuthorization (goString userID) (goString clientID) with
      | .error e =>
        (newErrorResult ("Failed to revoke user client authorization: " ++ e), st2)
      | .ok _ => (newSuccessEmptyResult, st2)

end Auth

namespace Storage

/-! ## Storage contract (src/storage/ffi.go + interface). -/

/-- A `StoragePlugin` implementation. -/
structure StoragePlugin where
  StoreFile : String → List Nat → Option String → Except String Unit
  RetrieveFile : String → Except String (List Nat)
  DeleteFile : String → Except String Unit
  FileExists : String → Bool
  GenerateURL : String → String → Option String
  ProviderName : String
  Cleanup : Except String Unit

/-- The storage package's process-global registry (same shape as the
auth one). -/
structure StorageState where
  registered : Option StoragePlugin
  pluginInitializer : Option (Nat → Option StoragePlugin × Option String)
  initCalls : Nat

/-- `GetRegisteredPlugin` (storage): before invoking the factory it also
calls `config.LoadConfigAndSetEnvVars("storage")`, whose effect is file
IO (or nothing when the global config blob is present) and is outside
the model; the slot logic is identical to the auth registry's. -/
def GetRegisteredPlugin (st : StorageState) : Option StoragePlugin × StorageState :=
  match st.registered with
  | some p => (some p, st)
  | none =>
    match st.pluginInitializer with
    | none => (none, st)
    | some factory =>
      match factory st.initCalls with
      | (some p, none) =>
        (some p, { st with registered := some p, initCalls := st.initCalls + 1 })
      | (some _, some _) => (none, { st with initCalls := st.initCalls + 1 })
      | (none, _) => (none, { st with initCalls := st.initCalls + 1 })

/-- Storage's `newSuccessResult` over raw bytes: empty data leaves the
buffer NULL (the byte buffer is carried as one char per byte). -/
def newSuccessBytes (data : List Nat) : FFIResult :=
  { success := true
    data := if data.isEmpty then none else some (String.mk (data.map Char.ofNat))
    errorMsg := none }

/-- `store_file_with_content_type`: note there is no NULL check here —
a NULL path decodes to the empty string and is passed through. -/
def store_file_with_content_type (st : StorageState) (path : Option String)
    (data : List Nat) (contentType : Option String) : FFIResult × StorageState :=
  match GetRegisteredPlugin st with
  | (none, st2) => (newErrorResult "No plugin registered", st2)
  | (some p, st2) =>
    match p.StoreFile (goString path) data contentType with
    | .error e => (newErrorResult e, st2)
    | .ok _ => (newSuccessEmptyResult, st2)

/-- `store_file` delegates with a NULL content type. -/
def store_file (st : StorageState) (path : Option String) (data : List Nat) :
    FFIResult × StorageState :=
  store_file_with_content_type st path data none

/-- `retrieve_file`. -/
def retrieve_file (st : StorageState) (path : Option String) : FFIResult × StorageState :=
  match GetRegisteredPlugin st with
  | (none, st2) => (newErrorResult "No plugin registered", st2)
  | (some p, st2) =>
    match p.RetrieveFile (goString path) with
    | .error e => (newErrorResult e, st2)
    | .ok data => (newSuccessBytes data, st2)

/-- `delete_file`. -/
def delete_file (st : StorageState) (path : Option String) : FFIResult × StorageState :=
  match GetRegisteredPlugin st with
  | (none, st2) => (newErrorResult "No plugin registered", st2)
  | (some p, st2) =>
    match p.DeleteFile (goString path) with
    | .error e => (newErrorResult e, st2)
    | .ok _ => (newSuccessEmptyResult, st2)

/-- `file_exists`: scalar boolean, false without a plugin. -/
def file_exists (st : StorageState) (path : Option String) : Bool × StorageState :=
  match GetRegisteredPlugin st with
  | (none, st2) => (false, st2)
  | (some p, st2) => (p.FileExists (goString path), st2)

/-- `generate_file_url`: scalar string, NULL without a plugin and NULL
when the provider declines. -/
def generate_file_url (st : StorageState) (path baseURL : Option String) :
    Option String × StorageState :=
  match GetRegisteredPlugin st with
  | (none, st2) => (none, st2)
  | (some p, st2) =>
    match p.GenerateURL (goString path) (goString baseURL) with
    | none => (none, st2)
    | some url => (cString url, st2)

/-- `provider_name` (storage): the no-plugin sentinel is the string
"Unknown Go Plugin". -/
def provider_name (st : StorageState) : Option String × StorageState :=
  match GetRegisteredPlugin st with
  | (none, st2) => (cString "Unknown Go Plugin", st2)
  | (some p, st2) => (cString p.ProviderName, st2)

/-- `init_plugin` (storage): just reports whether a plugin resolved. -/
def init_plugin (st : StorageState) : Bool × StorageState :=
  let (p, st2) := GetRegisteredPlugin st
  (p.isSome, st2)

/-- `cleanup_plugin` (storage): forwards to the plugin's `Cleanup` (the
logging and forced GC around it are IO). -/
def cleanup_plugin (st : StorageState) : Bool × StorageState :=
  match GetRegisteredPlugin st with
  | (none, st2) => (false, st2)
  | (some p, st2) =>
    match p.Cleanup with
    | .error _ => (false, st2)
    | .ok _ => (true, st2)

end Storage

namespace Cache

/-! ## Cache contract (src/cache/interface.go, both halves).

The boundary shims return a raw C string to the host.  The global
`provider` is passed explicitly as an `Option`, and the provider's own
state (it is a cache) is threaded as `σ`.  TTLs are whole seconds. -/

/-- A `CacheProvider` implementation over its own state type `σ`. -/
structure CacheProvider (σ : Type) where
  InitOp : List (String × String) → σ → Except String Unit × σ
  Get : String → σ → Except String String × σ
  Set : String → String → Option Nat → σ → Except String Unit × σ
  Delete : String → σ → Except String Bool × σ
  DeletePattern : String → σ → Except String Int × σ
  ExistsKey : String → σ → Except String Bool × σ
  SetMultiple : List (String × String) → Option Nat → σ → Except String Unit × σ
  Stats : σ → Except String (List (String × String)) × σ
  Name : String

/-- A decoded `CacheSetRequest`. -/
structure CacheSetRequest where
  key : String
  value : String
  ttl : Option Nat
deriving Repr, DecidableEq

/-- A decoded `CacheSetMultipleRequest`. -/
structure CacheSetMultipleRequest where
  entries : List (String × String)
  ttl : Option Nat

/-- Decode the `ttl` member the way `json.Unmarshal` fills a `*uint64`
field: absent or JSON null gives `none`, a non-negative integer number
is accepted, everything else is a type error. -/
def decodeTTL (ms : List (String × JValue)) : Except String (Option Nat) :=
  match jGet ms "ttl" with
  | none => .ok none
  | some .null => .ok none
  | some (.num lex) =>
    match jnumToNat lex with
    | some n => .ok (some n)
    | none => .error "cannot unmarshal number"
  | some _ => .error "cannot unmarshal"

/-- Decode a member `json.Unmarshal` fills a `string` field from:
absent or null keeps the zero value, a JSON string is taken, anything
else is a type error. -/
def decodeStrField (ms : List (String × JValue)) (field : String) : Except String String :=
  match jGet ms field with
  | none => .ok ""
  | some .null => .ok ""
  | some (.str s) => .ok s
  | some _ => .error "cannot unmarshal"

/-- `ParseCacheSetRequest`: `json.Unmarshal` into the request struct. -/
def ParseCacheSetRequest (input : String) : Except String CacheSetRequest :=
  match jsonParse input with
  | none => .error "invalid character"
  | some (.obj ms) =>
    match decodeStrField ms "key", decodeStrField ms "value", decodeTTL ms with
    | .ok k, .ok v, .ok t => .ok { key := k, value := v, ttl := t }
    | _, _, _ => .error "cannot unmarshal"
  | some .null => .ok { key := "", value := "", ttl := none }
  | some _ => .error "cannot unmarshal"

/-- Decode one entry of a `CacheSetMultipleRequest`. -/
def decodeEntry (v : JValue) : Except String (String × String) :=
  match v with
  | .obj ms =>
    match decodeStrField ms "key", decodeStrField ms "value" with
    | .ok k, .ok w => .ok (k, w)
    | _, _ => .error "cannot unmarshal"
  | .null => .ok ("", "")
  | _ => .error "cannot unmarshal"

/-- Decode the entry list of a `CacheSetMultipleRequest`. -/
def decodeEntries (vs : List JValue) : Except String (List (String × String)) :=
  match vs with
  | [] => .ok []
  | v :: rest =>
    match decodeEntry v, decodeEntries rest with
    | .ok e, .ok es => .ok (e :: es)
    | _, _ => .error "cannot unmarshal"

/-- `ParseCacheSetMultipleRequest`. -/
def ParseCacheSetMultipleRequest (input : String) : Except String CacheSetMultipleRequest :=
  match jsonParse input with
  | none => .error "invalid character"
  | some (.obj ms) =>
    let entriesE : Except String (List (String × String)) :=
      match jGet ms "entries" with
      | none => .ok []
      | some .null => .ok []
      | some (.arr vs) => decodeEntries vs
      | some _ => .error "cannot unmarshal"
    match entriesE, decodeTTL ms with
    | .ok es, .ok t => .ok { entries := es, ttl := t }
    | _, _ => .error "cannot unmarshal"
  | some .null => .ok { entries := [], ttl := none }
  | some _ => .error "cannot unmarshal"

/-- The literal `\x7b"error": "<msg>"\x7d` payload every cache shim
builds with `fmt.Sprintf`. -/
def errPayload (msg : String) : String :=
  String.singleton lbrace ++ "\"error\": \"" ++ msg ++ "\"" ++ String.singleton rbrace

/-- The literal `\x7b"success": true\x7d` payload. -/
def okPayload : String :=
  String.singleton lbrace ++ "\"success\": true" ++ String.singleton rbrace

/-- The shared no-provider reply. -/
def noProvider : String := errPayload "Cache provider not set"

/-- `initialize` export: decode the config map and call the provider's
`Initialize`.  (The decoded `map[string]string` keeps the model's member
order.) -/
def initializePlugin {σ : Type} (provider : Option (CacheProvider σ)) (s : σ)
    (configStr : String) : String × σ :=
  match provider with
  | none => (noProvider, s)
  | some p =>
    match jsonParse configStr with
    | some (.obj ms) =>
      match ms.foldr (fun kv acc =>
          match acc, kv.2 with
          | .ok m, .str v => .ok ((kv.1, v) :: m)
          | _, _ => .error "cannot unmarshal") (.ok [] : Except String (List (String × String))) with
      | .error _ => (errPayload "Failed to parse config: cannot unmarshal", s)
      | .ok cfg =>
        match p.InitOp cfg s with
        | (.error e, s2) => (errPayload ("Failed to initialize: " ++ e), s2)
        | (.ok _, s2) => (okPayload, s2)
    | some .null =>
      match p.InitOp [] s with
      | (.error e, s2) => (errPayload ("Failed to initialize: " ++ e), s2)
      | (.ok _, s2) => (okPayload, s2)
    | _ => (errPayload "Failed to parse config: invalid character", s)

/-- `cache_get`: miss and provider error both collapse to the sentinel
"null"; a stored value that is already valid JSON passes through raw,
anything else is marshaled as a JSON string. -/
def cache_get {σ : Type} (provider : Option (CacheProvider σ)) (s : σ)
    (key : String) : String × σ :=
  match provider with
  | none => (noProvider, s)
  | some p =>
    match p.Get key s with
    | (.error _, s2) => ("null", s2)
    | (.ok v, s2) =>
      if v = "" then ("null", s2)
      else if jsonValid v then (v, s2)
      else (jsonEncode (.str v), s2)

/-- `cache_set`. -/
def cache_set {σ : Type} (provider : Option (CacheProvider σ)) (s : σ)
    (input : String) : String × σ :=
  match provider with
  | none => (noProvider, s)
  | some p =>
    match ParseCacheSetRequest input with
    | .error e => (errPayload ("Failed to parse request: " ++ e), s)
    | .ok req =>
      match p.Set req.key req.value req.ttl s with
      | (.error e, s2) => (errPayload ("Failed to set cache: " ++ e), s2)
      | (.ok _, s2) => (okPayload, s2)

/-- `cache_delete`: the scalar `fmt.Sprintf("%v", deleted)`. -/
def cache_delete {σ : Type} (provider : Option (CacheProvider σ)) (s : σ)
    (key : String) : String × σ :=
  match provider with
  | none => (noProvider, s)
  | some p =>
    match p.Delete key s with
    | (.error e, s2) => (errPayload ("Failed to delete: " ++ e), s2)
    | (.ok deleted, s2) => (if deleted then "true" else "false", s2)

/-- `cache_delete_pattern`: the scalar `fmt.Sprintf("%d", count)`. -/
def cache_delete_pattern {σ : Type} (provider : Option (CacheProvider σ)) (s : σ)
    (pattern : String) : String × σ :=
  match provider with
  | none => (noProvider, s)
  | some p =>
    match p.DeletePattern pattern s with
    | (.error e, s2) => (errPayload ("Failed to delete pattern: " ++ e), s2)
    | (.ok count, s2) => (toString count, s2)

/-- `cache_exists`. -/
def cache_exists {σ : Type} (provider : Option (CacheProvider σ)) (s : σ)
    (key : String) : String × σ :=
  match provider with
  | none => (noProvider, s)
  | some p =>
    match p.ExistsKey key s with
    | (.error e, s2) => (errPayload ("Failed to check existence: " ++ e), s2)
    | (.ok ex, s2) => (if ex then "true" else "false", s2)

/-- `cache_set_multiple`: the decoded entries are folded into a Go map
(later duplicates replace earlier ones) before the provider call. -/
def cache_set_multiple {σ : Type} (provider : Option (CacheProvider σ)) (s : σ)
    (input : String) : String × σ :=
  match provider with
  | none => (noProvider, s)
  | some p =>
    match ParseCacheSetMultipleRequest input with
    | .error e => (errPayload ("Failed to parse request: " ++ e), s)
    | .ok req =>
      let entries := req.entries.foldl (fun m kv => assocSet m kv.1 kv.2) []
      match p.SetMultiple entries req.ttl s with
      | (.error e, s2) => (errPayload ("Failed to set multiple: " ++ e), s2)
      | (.ok _, s2) => (okPayload, s2)

/-- `cache_stats`: the stats map is marshaled as a JSON object of
strings. -/
def cache_stats {σ : Type} (provider : Option (CacheProvider σ)) (s : σ) :
    String × σ :=
  match provider with
  | none => (noProvider, s)
  | some p =>
    match p.Stats s with
    | (.error e, s2) => (errPayload ("Failed to get stats: " ++ e), s2)
    | (.ok stats, s2) => (jsonEncode (.obj (stats.map fun kv => (kv.1, .str kv.2))), s2)

/-- `provider_name` (cache): the no-provider sentinel is the string
"Unknown Cache Provider". -/
def provider_name {σ : Type} (provider : Option (CacheProvider σ)) : String :=
  match provider with
  | none => "Unknown Cache Provider"
  | some p => p.Name

end Cache

namespace General

/-! ## General-event contract (src/general/export.go, fullest revision;
the three shipped revisions share the init/cleanup flag logic).

Event payloads (`Environment`, `Organization`, `User`, the OAuth
events) are structs of the external `types` library; the model hands
the plugin the decoded JSON value instead.  `Initialize`/`Cleanup` may
be stateful in Go, so they take the number of earlier invocations. -/

/-- A `GeneralPlugin` implementation. -/
structure GeneralPlugin where
  GetPluginName : String
  GetPluginVersion : String
  InitializeOp : Nat → Bool
  CleanupOp : Nat → Bool
  OnEnvironmentCreated : JValue → Bool
  OnEnvironmentUpdated : JValue → Bool
  OnEnvironmentDeleted : JValue → Bool
  OnOrganizationCreated : JValue → Bool
  OnOrganizationUpdated : JValue → Bool
  OnOrganizationDeleted : JValue → Bool
  OnUserCreated : JValue → Bool
  OnUserUpdated : JValue → Bool
  OnUserDeleted : JValue → Bool
  OnUserAssignedToOrganization : String → String → Bool
  OnUserRemovedFromOrganization : String → String → Bool
  OnUserAssignedToEnvironment : String → String → Bool
  OnUserRemovedFromEnvironment : String → String → Bool
  OnUserAvatarUploaded : String → String → Bool
  OnOAuthClientCreated : JValue → Bool
  OnOAuthClientUpdated : JValue → Bool
  OnOAuthClientDeleted : JValue → Bool
  OnUserClientAuthorizationRevoked : JValue → Bool

/-- The general package's process-global state: the exported plugin,
the `isInitialized` flag, invocation counters for the stateful
lifecycle calls, and the `config` package's global map. -/
structure GeneralState where
  plugin : Option GeneralPlugin
  isInitialized : Bool
  initCalls : Nat
  cleanupCalls : Nat
  cfg : Option Config.ConfigMap

/-- `get_plugin_name`: `C.CString` of the name, "Unknown Plugin"
without a plugin (no empty-string-to-NULL mapping here). -/
def get_plugin_name (st : GeneralState) : String :=
  match st.plugin with
  | none => "Unknown Plugin"
  | some p => p.GetPluginName

/-- `get_plugin_version`: "0.0.0" without a plugin. -/
def get_plugin_version (st : GeneralState) : String :=
  match st.plugin with
  | none => "0.0.0"
  | some p => p.GetPluginVersion

/-- `init_plugin` (general): 0 without a plugin; 1 with no work if the
flag is already up; otherwise invoke `Initialize` and raise the flag on
success. -/
def init_plugin (st : GeneralState) : Int × GeneralState :=
  match st.plugin with
  | none => (0, st)
  | some p =>
    if st.isInitialized then (1, st)
    else
      let ok := p.InitializeOp st.initCalls
      let st2 := { st with initCalls := st.initCalls + 1 }
      if ok then (1, { st2 with isInitialized := true })
      else (0, st2)

/-- `cleanup_plugin` (general): 0 without a plugin; 1 with no work if
the flag is already down; otherwise invoke `Cleanup` and lower the flag
on success. -/
def cleanup_plugin (st : GeneralState) : Int × GeneralState :=
  match st.plugin with
  | none => (0, st)
  | some p =>
    if ¬ st.isInitialized then (1, st)
    else
      let ok := p.CleanupOp st.cleanupCalls
      let st2 := { st with cleanupCalls := st.cleanupCalls + 1 }
      if ok then (1, { st2 with isInitialized := false })
      else (0, st2)

/-- `initialize_with_config` (general): requires a plugin, pushes the
blob into the config store (failure reports false with state
untouched), then behaves like `init_plugin` on the flag. -/
def initialize_with_config (st : GeneralState) (configJson : Option String) :
    Bool × GeneralState :=
  let configStr := goString configJson
  match st.plugin with
  | none => (false, st)
  | some p =>
    match Config.SetConfigFromJSON st.cfg configStr with
    | .error _ => (false, st)
    | .ok newCfg =>
      let st2 := { st with cfg := newCfg }
      if st2.isInitialized then (true, st2)
      else
        let ok := p.InitializeOp st2.initCalls
        let st3 := { st2 with initCalls := st2.initCalls + 1 }
        if ok then (true, { st3 with isInitialized := true })
        else (false, st3)

/-- The shared shape of every `on_<event>` export with a single JSON
payload: 0 without a plugin, 0 on a NULL pointer, 0 on a decode
failure, else the callback's boolean as 0/1.  The decode into the
external struct is modeled by `jsonParse` (a non-object document other
than null is a decode failure). -/
def eventShim (st : GeneralState) (jsonPtr : Option String)
    (callback : GeneralPlugin → JValue → Bool) : Int :=
  match st.plugin with
  | none => 0
  | some p =>
    match jsonPtr with
    | none => 0
    | some s =>
      match jsonParse s with
      | some (.obj ms) => if callback p (.obj ms) then 1 else 0
      | some .null => if callback p .null then 1 else 0
      | _ => 0

/-- `on_environment_created`. -/
def on_environment_created (st : GeneralState) (jsonPtr : Option String) : Int :=
  eventShim st jsonPtr (fun p => p.OnEnvironmentCreated)

/-- `on_environment_updated`. -/
def on_environment_updated (st : GeneralState) (jsonPtr : Option String) : Int :=
  eventShim st jsonPtr (fun p => p.OnEnvironmentUpdated)

/-- `on_environment_deleted`. -/
def on_environment_deleted (st : GeneralState) (jsonPtr : Option String) : Int :=
  eventShim st jsonPtr (fun p => p.OnEnvironmentDeleted)

/-- `on_organization_created`. -/
def on_organization_created (st : GeneralState) (jsonPtr : Option String) : Int :=
  eventShim st jsonPtr (fun p => p.OnOrganizationCreated)

/-- `on_organization_updated`. -/
def on_organization_updated (st : GeneralState) (jsonPtr : Option String) : Int :=
  eventShim st jsonPtr (fun p => p.OnOrganizationUpdated)

/-- `on_organization_deleted`. -/
def on_organization_deleted (st : GeneralState) (jsonPtr : Option String) : Int :=
  eventShim st jsonPtr (fun p => p.OnOrganizationDeleted)

/-- `on_user_created`. -/
def on_user_created (st : GeneralState) (jsonPtr : Option String) : Int :=
  eventShim st jsonPtr (fun p => p.OnUserCreated)

/-- `on_user_updated`. -/
def on_user_updated (st : GeneralState) (jsonPtr : Option String) : Int :=
  eventShim st jsonPtr (fun p => p.OnUserUpdated)

/-- `on_user_deleted`. -/
def on_user_deleted (st : GeneralState) (jsonPtr : Option String) : Int :=
  eventShim st jsonPtr (fun p => p.OnUserDeleted)

/-- The two-string-field events decode a params struct; the model
extracts the two fields the way `json.Unmarshal` fills `string`
members. -/
def twoFieldShim (st : GeneralState) (jsonPtr : Option String) (f1 f2 : String)
    (callback : GeneralPlugin → String → String → Bool) : Int :=
  match st.plugin with
  | none => 0
  | some p =>
    match jsonPtr with
    | none => 0
    | some s =>
      match jsonParse s with
      | some (.obj ms) =>
        match Cache.decodeStrField ms f1, Cache.decodeStrField ms f2 with
        | .ok a, .ok b => if callback p a b then 1 else 0
        | _, _ => 0
      | some .null => if callback p "" "" then 1 else 0
      | _ => 0

/-- `on_user_assigned_to_organization`. -/
def on_user_assigned_to_organization (st : GeneralState) (jsonPtr : Option String) : Int :=
  twoFieldShim st jsonPtr "user_id" "org_id" (fun p => p.OnUserAssignedToOrganization)

/-- `on_user_removed_from_organization`. -/
def on_user_removed_from_organization (st : GeneralState) (jsonPtr : Option String) : Int :=
  twoFieldShim st jsonPtr "user_id" "org_id" (fun p => p.OnUserRemovedFromOrganization)

/-- `on_user_assigned_to_environment`. -/
def on_user_assigned_to_environment (st : GeneralState) (jsonPtr : Option String) : Int :=
  twoFieldShim st jsonPtr "user_id" "env_id" (fun p => p.OnUserAssignedToEnvironment)

/-- `on_user_removed_from_environment`. -/
def on_user_removed_from_environment (st : GeneralState) (jsonPtr : Option String) : Int :=
  twoFieldShim st jsonPtr "user_id" "env_id" (fun p => p.OnUserRemovedFromEnvironment)

/-- `on_user_avatar_uploaded`. -/
def on_user_avatar_uploaded (st : GeneralState) (jsonPtr : Option String) : Int :=
  twoFieldShim st jsonPtr "user_id" "file_id" (fun p => p.OnUserAvatarUploaded)

/-- `on_oauth_client_created`. -/
def on_oauth_client_created (st : GeneralState) (jsonPtr : Option String) : Int :=
  eventShim st jsonPtr (fun p => p.OnOAuthClientCreated)

/-- `on_oauth_client_updated`. -/
def on_oauth_client_updated (st : GeneralState) (jsonPtr : Option String) : Int :=
  eventShim st jsonPtr (fun p => p.OnOAuthClientUpdated)

/-- `on_oauth_client_deleted`. -/
def on_oauth_client_deleted (st : GeneralState) (jsonPtr : Option String) : Int :=
  eventShim st jsonPtr (fun p => p.OnOAuthClientDeleted)

/-- `on_user_client_authorization_revoked`. -/
def on_user_client_authorization_revoked (st : GeneralState) (jsonPtr : Option String) : Int :=
  eventShim st jsonPtr (fun p => p.OnUserClientAuthorizationRevoked)

end General

/-! ## Shared concrete instances for evaluation -/

/-- A benign auth plugin used as a concrete registrand: every operation
succeeds with a neutral value. -/
def stubAuthPlugin : Auth.AuthPlugin where
  CheckUserAccess := fun _ _ _ => .ok true
  CreateUser := fun _ => .ok .null
  GetUserDetails := fun _ => .ok .null
  GetUserDetailsByEmail := fun _ => .ok .null
  GetPluginInfo := .ok .null
  ProviderName := "test-provider"
  HealthCheck := true
  ValidateUser := fun _ => true
  GetUserGroups := fun _ => .ok []
  SearchUsers := fun _ _ => .ok (.arr [])
  DeleteUser := fun _ => .ok ()
  GetUserPermissions := fun _ => .ok (.arr [])
  CreateOAuthClient := fun _ => .ok .null
  GetOAuthClient := fun _ => .ok .null
  UpdateOAuthClient := fun _ _ => .ok .null
  DeleteOAuthClient := fun _ => .ok ()
  ListOAuthClients := fun _ _ => .ok (.arr [])
  ListUserAuthorizedClients := fun _ => .ok (.arr [])
  RevokeUserClientAuthorization := fun _ _ => .ok ()
  Cleanup := .ok ()

/-- A general plugin whose lifecycle operations always succeed. -/
def stubGeneralPlugin : General.GeneralPlugin where
  GetPluginName := "stub-general"
  GetPluginVersion := "1.0.0"
  InitializeOp := fun _ => true
  CleanupOp := fun _ => true
  OnEnvironmentCreated := fun _ => true
  OnEnvironmentUpdated := fun _ => true
  OnEnvironmentDeleted := fun _ => true
  OnOrganizationCreated := fun _ => true
  OnOrganizationUpdated := fun _ => true
  OnOrganizationDeleted := fun _ => true
  OnUserCreated := fun _ => true
  OnUserUpdated := fun _ => true
  OnUserDeleted := fun _ => true
  OnUserAssignedToOrganization := fun _ _ => true
  OnUserRemovedFromOrganization := fun _ _ => true
  OnUserAssignedToEnvironment := fun _ _ => true
  OnUserRemovedFromEnvironment := fun _ _ => true
  OnUserAvatarUploaded := fun _ _ => true
  OnOAuthClientCreated := fun _ => true
  OnOAuthClientUpdated := fun _ => true
  OnOAuthClientDeleted := fun _ => true
  OnUserClientAuthorizationRevoked := fun _ => true

/-- The auth package's state at process start. -/
def emptyAuthState : Auth.AuthState :=
  { registered := none, pluginInitializer := none, initCalls := 0, cfg := none }

/-- The storage package's state at process start. -/
def emptyStorageState : Storage.StorageState :=
  { registered := none, pluginInitializer := none, initCalls := 0 }

/-- The general package's state at process start. -/
def emptyGeneralState : General.GeneralState :=
  { plugin := none, isInitialized := false, initCalls := 0, cleanupCalls := 0, cfg := none }

/-- An in-memory cache provider that behaves as a plain key-value map
(the hypothetical conforming implementation of the round-trip
property); TTLs are accepted and ignored. -/
def mapCache : Cache.CacheProvider (List (String × String)) where
  InitOp := fun _ s => (.ok (), s)
  Get := fun k s =>
    match assocGet s k with
    | some v => (.ok v, s)
    | none => (.error "cache key not found", s)
  Set := fun k v _ s => (.ok (), assocSet s k v)
  Delete := fun k s => (.ok (assocGet s k).isSome, s.filter (fun kv => kv.1 != k))
  DeletePattern := fun _ s => (.ok 0, s)
  ExistsKey := fun k s => (.ok (assocGet s k).isSome, s)
  SetMultiple := fun es _ s => (.ok (), es.foldl (fun m kv => assocSet m kv.1 kv.2) s)
  Stats := fun s => (.ok [], s)
  Name := "map-cache"

/-! ## No-plugin predicates and registry bookkeeping -/

namespace Auth

/-- No instance is registered and no invocation of the lazy initializer
(if any is held) succeeds: the situation in which every boundary call
must produce its no-plugin answer. -/
def NoPlugin (st : AuthState) : Prop :=
  st.registered = none ∧
  ∀ f, st.pluginInitializer = some f → ∀ n, (f n).2 ≠ none ∨ (f n).1 = none

/-- The state after a failed resolution attempt: the call counter moves
only when a factory was there to invoke. -/
def bump (st : AuthState) : AuthState :=
  match st.pluginInitializer with
  | none => st
  | some _ => { st with initCalls := st.initCalls + 1 }

end Auth

namespace Storage

/-- The storage analogue of `Auth.NoPlugin`. -/
def NoPlugin (st : StorageState) : Prop :=
  st.registered = none ∧
  ∀ f, st.pluginInitializer = some f → ∀ n, (f n).2 ≠ none ∨ (f n).1 = none

/-- The storage analogue of `Auth.bump`. -/
def bump (st : StorageState) : StorageState :=
  match st.pluginInitializer with
  | none => st
  | some _ => { st with initCalls := st.initCalls + 1 }

end Storage

/-! ## Reply-shape predicates for the cache boundary -/

namespace Cache

/-- A structured error payload: exactly the `\x7b"error": "<msg>"\x7d`
template every cache shim renders. -/
def isErrorReply (s : String) : Prop := ∃ m, s = errPayload m

/-- A structured success payload: exactly the successful shapes the
shims emit — the fixed success object, the marshaled encoding of a
string value (`cache_get` on a non-JSON stored value), the marshaled
encoding of a string-to-string map (`cache_stats`), or a raw stored
value that passed `json.Valid` (`cache_get` passthrough).  Note the
marshal disjuncts are anchored at `.str`/`.obj`-of-strings: they do NOT
hold of arbitrary strings (see the non-vacuity part of the C6
theorem). -/
def isSuccessReply (s : String) : Prop :=
  s = okPayload ∨
  (∃ v, s = jsonEncode (.str v)) ∨
  (∃ kvs : List (String × String),
    s = jsonEncode (.obj (kvs.map fun kv => (kv.1, .str kv.2)))) ∨
  jsonValid s = true

/-- A scalar sentinel: the literals `null`, `true`, `false`, or a
decimal integer. -/
def isSentinelReply (s : String) : Prop :=
  s = "null" ∨ s = "true" ∨ s = "false" ∨ ∃ n : Int, s = toString n

/-- Every string a cache shim may hand the host falls in one of the
three documented shapes. -/
def WellShaped (s : String) : Prop :=
  isErrorReply s ∨ isSuccessReply s ∨ isSentinelReply s

end Cache

/-! ## Conclusion predicates of the larger claims -/

/-- What every boundary function returns when no plugin resolves
(auth and storage states satisfying the no-plugin predicates, the cache
provider absent, the general plugin absent). -/
def NoPluginOutcomes (ast : Auth.AuthState) (sst : Storage.StorageState)
    (gst : General.GeneralState) : Prop :=
  (∀ x, (Auth.initialize_with_config ast x).1 = false) ∧
  (∀ x y z, (Auth.check_user_access ast x y z).1 = newErrorResult "No plugin registered") ∧
  (∀ x, (Auth.create_user ast x).1 = newErrorResult "No plugin registered") ∧
  (∀ x, (Auth.get_user_details ast x).1 = newErrorResult "No plugin registered") ∧
  (∀ x, (Auth.get_user_details_by_email ast x).1 = newErrorResult "No plugin registered") ∧
  ((Auth.get_plugin_info ast).1 = newErrorResult "No plugin registered") ∧
  ((Auth.provider_name ast).1 = some "unknown") ∧
  ((Auth.health_check ast).1 = false) ∧
  (∀ x, (Auth.validate_user ast x).1 = false) ∧
  (∀ x, (Auth.get_user_groups ast x).1 = newErrorResult "No plugin registered") ∧
  (∀ x n, (Auth.search_users ast x n).1 = newErrorResult "No plugin registered") ∧
  (∀ x, (Auth.delete_user ast x).1 = newErrorResult "No plugin registered") ∧
  (∀ x, (Auth.get_user_permissions ast x).1 = newErrorResult "No plugin registered") ∧
  ((Auth.cleanup_plugin ast).1 = false) ∧
  (∀ x, (Auth.create_oauth_client ast x).1 = newErrorResult "No plugin registered") ∧
  (∀ x, (Auth.get_oauth_client ast x).1 = newErrorResult "No plugin registered") ∧
  (∀ x y, (Auth.update_oauth_client ast x y).1 = newErrorResult "No plugin registered") ∧
  (∀ x, (Auth.delete_oauth_client ast x).1 = newErrorResult "No plugin registered") ∧
  (∀ n m, (Auth.list_oauth_clients ast n m).1 = newErrorResult "No plugin registered") ∧
  (∀ x, (Auth.list_user_authorized_clients ast x).1 = newErrorResult "No plugin registered") ∧
  (∀ x y, (Auth.revoke_user_client_authorization ast x y).1 = newErrorResult "No plugin registered") ∧
  (∀ x d c, (Storage.store_file_with_content_type sst x d c).1 = newErrorResult "No plugin registered") ∧
  (∀ x d, (Storage.store_file sst x d).1 = newErrorResult "No plugin registered") ∧
  (∀ x, (Storage.retrieve_file sst x).1 = newErrorResult "No plugin registered") ∧
  (∀ x, (Storage.delete_file sst x).1 = newErrorResult "No plugin registered") ∧
  (∀ x, (Storage.file_exists sst x).1 = false) ∧
  (∀ x y, (Storage.generate_file_url sst x y).1 = none) ∧
  ((Storage.provider_name sst).1 = some "Unknown Go Plugin") ∧
  ((Storage.init_plugin sst).1 = false) ∧
  ((Storage.cleanup_plugin sst).1 = false) ∧
  (∀ (σ : Type) (s : σ) x,
    (Cache.initializePlugin (none : Option (Cache.CacheProvider σ)) s x).1 = Cache.noProvider ∧
    (Cache.cache_get (none : Option (Cache.CacheProvider σ)) s x).1 = Cache.noProvider ∧
    (Cache.cache_set (none : Option (Cache.CacheProvider σ)) s x).1 = Cache.noProvider ∧
    (Cache.cache_delete (none : Option (Cache.CacheProvider σ)) s x).1 = Cache.noProvider ∧
    (Cache.cache_delete_pattern (none : Option (Cache.CacheProvider σ)) s x).1 = Cache.noProvider ∧
    (Cache.cache_exists (none : Option (Cache.CacheProvider σ)) s x).1 = Cache.noProvider ∧
    (Cache.cache_set_multiple (none : Option (Cache.CacheProvider σ)) s x).1 = Cache.noProvider ∧
    (Cache.cache_stats (none : Option (Cache.CacheProvider σ)) s).1 = Cache.noProvider ∧
    Cache.provider_name (none : Option (Cache.CacheProvider σ)) = "Unknown Cache Provider") ∧
  (General.get_plugin_name gst = "Unknown Plugin") ∧
  (General.get_plugin_version gst = "0.0.0") ∧
  ((General.init_plugin gst).1 = 0) ∧
  ((General.cleanup_plugin gst).1 = 0) ∧
  (∀ x, (General.initialize_with_config gst x).1 = false) ∧
  (∀ x, General.on_environment_created gst x = 0) ∧
  (∀ x, General.on_environment_updated gst x = 0) ∧
  (∀ x, General.on_environment_deleted gst x = 0) ∧
  (∀ x, General.on_organization_created gst x = 0) ∧
  (∀ x, General.on_organization_updated gst x = 0) ∧
  (∀ x, General.on_organization_deleted gst x = 0) ∧
  (∀ x, General.on_user_created gst x = 0) ∧
  (∀ x, General.on_user_updated gst x = 0) ∧
  (∀ x, General.on_user_deleted gst x = 0) ∧
  (∀ x, General.on_user_assigned_to_organization gst x = 0) ∧
  (∀ x, General.on_user_removed_from_organization gst x = 0) ∧
  (∀ x, General.on_user_assigned_to_environment gst x = 0) ∧
  (∀ x, General.on_user_removed_from_environment gst x = 0) ∧
  (∀ x, General.on_user_avatar_uploaded gst x = 0) ∧
  (∀ x, General.on_oauth_client_created gst x = 0) ∧
  (∀ x, General.on_oauth_client_updated gst x = 0) ∧
  (∀ x, General.on_oauth_client_deleted gst x = 0) ∧
  (∀ x, General.on_user_client_authorization_revoked gst x = 0)

/-- What the auth boundary does with a NULL required argument while a
plugin is registered: the documented "cannot be null" failure, with the
state untouched — and, because the statement holds for every registered
plugin, independently of the plugin, which is therefore not consulted. -/
def NullArgOutcomes (st : Auth.AuthState) : Prop :=
  (∀ y z, Auth.check_user_access st none y z =
    (newErrorResult "userID, resource, and action cannot be null", st)) ∧
  (∀ x z, Auth.check_user_access st x none z =
    (newErrorResult "userID, resource, and action cannot be null", st)) ∧
  (∀ x y, Auth.check_user_access st x y none =
    (newErrorResult "userID, resource, and action cannot be null", st)) ∧
  (Auth.create_user st none = (newErrorResult "request cannot be null", st)) ∧
  (Auth.get_user_details st none = (newErrorResult "userID cannot be null", st)) ∧
  (Auth.get_user_details_by_email st none = (newErrorResult "email cannot be null", st)) ∧
  (Auth.get_user_groups st none = (newErrorResult "userID cannot be null", st)) ∧
  (∀ n, Auth.search_users st none n = (newErrorResult "query cannot be null", st)) ∧
  (Auth.delete_user st none = (newErrorResult "userID cannot be null", st)) ∧
  (Auth.get_user_permissions st none = (newErrorResult "userID cannot be null", st)) ∧
  (Auth.create_oauth_client st none = (newErrorResult "request cannot be null", st)) ∧
  (Auth.get_oauth_client st none = (newErrorResult "clientID cannot be null", st)) ∧
  (∀ y, Auth.update_oauth_client st none y =
    (newErrorResult "clientID and request cannot be null", st)) ∧
  (∀ x, Auth.update_oauth_client st x none =
    (newErrorResult "clientID and request cannot be null", st)) ∧
  (Auth.delete_oauth_client st none = (newErrorResult "clientID cannot be null", st)) ∧
  (Auth.list_user_authorized_clients st none = (newErrorResult "userID cannot be null", st)) ∧
  (∀ y, Auth.revoke_user_client_authorization st none y =
    (newErrorResult "userID and clientID cannot be null", st)) ∧
  (∀ x, Auth.revoke_user_client_authorization st x none =
    (newErrorResult "userID and clientID cannot be null", st))

/-- The lifecycle-flag behavior of the general plugin's `init_plugin` /
`cleanup_plugin` pair at a state holding plugin `p`. -/
def LifecycleOutcomes (st : General.GeneralState) (p : General.GeneralPlugin) : Prop :=
  (st.isInitialized = true → General.init_plugin st = (1, st)) ∧
  (st.isInitialized = false → p.InitializeOp st.initCalls = true →
    General.init_plugin st =
      (1, { st with isInitialized := true, initCalls := st.initCalls + 1 }) ∧
    General.init_plugin (General.init_plugin st).2 = (1, (General.init_plugin st).2)) ∧
  (st.isInitialized = false → General.cleanup_plugin st = (1, st)) ∧
  (st.isInitialized = true → p.CleanupOp st.cleanupCalls = true →
    General.cleanup_plugin st =
      (1, { st with isInitialized := false, cleanupCalls := st.cleanupCalls + 1 }) ∧
    (General.init_plugin (General.cleanup_plugin st).2).2.initCalls = st.initCalls + 1)

/-! ## Helper lemmas -/

/-- A registered instance is returned as-is, with no state change. -/
theorem auth_get_some (st : Auth.AuthState) (p : Auth.AuthPlugin)
    (h : st.registered = some p) : Auth.GetRegisteredPlugin st = (some p, st) := by
  unfold Auth.GetRegisteredPlugin
  rw [h]

/-- Under `Auth.NoPlugin` the lookup yields no plugin and only the
model's invocation counter moves. -/
theorem auth_get_noPlugin (st : Auth.AuthState) (h : Auth.NoPlugin st) :
    Auth.GetRegisteredPlugin st = (none, Auth.bump st) := by
  obtain ⟨hreg, hini⟩ := h
  unfold Auth.GetRegisteredPlugin Auth.bump
  rw [hreg]
  cases hi : st.pluginInitializer with
  | none => rfl
  | some f =>
    have hf := hini f hi st.initCalls
    rcases hr : f st.initCalls with ⟨q, e⟩
    rw [hr] at hf
    cases q <;> cases e <;> simp_all

/-- The storage analogue of `auth_get_some`. -/
theorem storage_get_some (st : Storage.StorageState) (p : Storage.StoragePlugin)
    (h : st.registered = some p) : Storage.GetRegisteredPlugin st = (some p, st) := by
  unfold Storage.GetRegisteredPlugin
  rw [h]

/-- The storage analogue of `auth_get_noPlugin`. -/
theorem storage_get_noPlugin (st : Storage.StorageState) (h : Storage.NoPlugin st) :
    Storage.GetRegisteredPlugin st = (none, Storage.bump st) := by
  obtain ⟨hreg, hini⟩ := h
  unfold Storage.GetRegisteredPlugin Storage.bump
  rw [hreg]
  cases hi : st.pluginInitializer with
  | none => rfl
  | some f =>
    have hf := hini f hi st.initCalls
    rcases hr : f st.initCalls with ⟨q, e⟩
    rw [hr] at hf
    cases q <;> cases e <;> simp_all

/-- The plugin lookup never touches the config field of the state. -/
theorem auth_get_cfg (st : Auth.AuthState) :
    (Auth.GetRegisteredPlugin st).2.cfg = st.cfg := by
  unfold Auth.GetRegisteredPlugin
  cases st.registered
  · cases st.pluginInitializer
    · rfl
    · rename_i f
      rcases hr : f st.initCalls with ⟨q, e⟩
      cases q <;> cases e <;> simp [hr]
  · rfl

/-- The plugin lookup keeps the initializer and, when it fails to
produce an instance, leaves the slot unregistered with the counter
advanced by one. -/
theorem auth_get_counter (st : Auth.AuthState) (f : Nat → Option Auth.AuthPlugin × Option String)
    (hreg : st.registered = none) (hf : st.pluginInitializer = some f) :
    (Auth.GetRegisteredPlugin st).2.initCalls = st.initCalls + 1 ∧
    (Auth.GetRegisteredPlugin st).2.pluginInitializer = some f := by
  unfold Auth.GetRegisteredPlugin
  rw [hreg, hf]
  rcases hr : f st.initCalls with ⟨q, e⟩
  cases q <;> cases e <;> simp [hr]

/-! ## Claim C5 -/

/-- C5: on `GetRegisteredPlugin` with an empty slot and a held
initializer, the initializer is invoked; a successful invocation
(non-nil plugin, nil error) registers and returns the instance; a
failed one leaves the slot empty and the caller sees no instance with
the factory's error swallowed (the model's return channel carries no
error at all); and a further lookup while the slot is still empty
invokes the factory again. -/
theorem C5_registry_lazy_init (st : Auth.AuthState)
    (f : Nat → Option Auth.AuthPlugin × Option String)
    (hreg : st.registered = none) (hf : st.pluginInitializer = some f) :
    ((Auth.GetRegisteredPlugin st).2.initCalls = st.initCalls + 1) ∧
    (∀ p, f st.initCalls = (some p, none) →
      Auth.GetRegisteredPlugin st =
        (some p, { st with registered := some p, initCalls := st.initCalls + 1 })) ∧
    ((f st.initCalls).2 ≠ none ∨ (f st.initCalls).1 = none →
      Auth.GetRegisteredPlugin st = (none, { st with initCalls := st.initCalls + 1 }) ∧
      (Auth.GetRegisteredPlugin (Auth.GetRegisteredPlugin st).2).2.initCalls =
        st.initCalls + 2) := by
  have hcnt := auth_get_counter st f hreg hf
  refine ⟨hcnt.1, ?_, ?_⟩
  · intro p hp
    simp [Auth.GetRegisteredPlugin, hreg, hf, hp]
  · intro hfail
    have h1 : Auth.GetRegisteredPlugin st =
        (none, { st with initCalls := st.initCalls + 1 }) := by
      rcases hr : f st.initCalls with ⟨q, e⟩
      rw [hr] at hfail
      cases q <;> cases e <;> simp_all [Auth.GetRegisteredPlugin, hreg, hf, hr]
    refine ⟨h1, ?_⟩
    rw [h1]
    have h2 := auth_get_counter { st with initCalls := st.initCalls + 1 } f hreg hf
    rw [h2.1]

/-- A factory that always fails, and a state holding only it. -/
def failFactory : Nat → Option Auth.AuthPlugin × Option String :=
  fun _ => (none, some "factory error")

/-- The auth state with an empty slot and the failing factory. -/
def c5State : Auth.AuthState :=
  { registered := none, pluginInitializer := some failFactory, initCalls := 0, cfg := none }

/-- Witness for C5 at the always-failing factory. -/
theorem C5_registry_lazy_init_witness :
    c5State.registered = none ∧ c5State.pluginInitializer = some failFactory ∧
    (((Auth.GetRegisteredPlugin c5State).2.initCalls = c5State.initCalls + 1) ∧
     (∀ p, failFactory c5State.initCalls = (some p, none) →
       Auth.GetRegisteredPlugin c5State =
         (some p, { c5State with registered := some p, initCalls := c5State.initCalls + 1 })) ∧
     ((failFactory c5State.initCalls).2 ≠ none ∨ (failFactory c5State.initCalls).1 = none →
       Auth.GetRegisteredPlugin c5State =
         (none, { c5State with initCalls := c5State.initCalls + 1 }) ∧
       (Auth.GetRegisteredPlugin (Auth.GetRegisteredPlugin c5State).2).2.initCalls =
         c5State.initCalls + 2)) :=
  ⟨rfl, rfl, C5_registry_lazy_init c5State failFactory rfl rfl⟩

/-! ## Claim C10 -/

/-- C10: the general lifecycle flag makes `init_plugin` and
`cleanup_plugin` idempotent: with the flag up, `init_plugin` answers 1
without invoking `Initialize` (the state, counters included, is
untouched); a successful init raises the flag and later `init_plugin`
calls answer 1 with no further invocation; `cleanup_plugin` with the
flag down answers 1 without invoking `Cleanup`; a successful cleanup
lowers the flag, after which the next `init_plugin` invokes
`Initialize` again (its invocation counter moves). -/
theorem C10_lifecycle_flag (st : General.GeneralState) (p : General.GeneralPlugin)
    (hp : st.plugin = some p) : LifecycleOutcomes st p := by
  unfold LifecycleOutcomes
  refine ⟨?_, ?_, ?_, ?_⟩
  · intro hI
    simp [General.init_plugin, hp, hI]
  · intro hI hsucc
    have h1 : General.init_plugin st =
        (1, { st with isInitialized := true, initCalls := st.initCalls + 1 }) := by
      simp [General.init_plugin, hp, hI, hsucc]
    refine ⟨h1, ?_⟩
    rw [h1]
    simp [General.init_plugin, hp]
  · intro hI
    simp [General.cleanup_plugin, hp, hI]
  · intro hI hsucc
    have h1 : General.cleanup_plugin st =
        (1, { st with isInitialized := false, cleanupCalls := st.cleanupCalls + 1 }) := by
      simp [General.cleanup_plugin, hp, hI, hsucc]
    refine ⟨h1, ?_⟩
    rw [h1]
    cases hio : p.InitializeOp st.initCalls <;> simp [General.init_plugin, hp, hio]

/-- An initialized general state holding the stub plugin. -/
def c10State : General.GeneralState :=
  { plugin := some stubGeneralPlugin, isInitialized := true
    initCalls := 0, cleanupCalls := 0, cfg := none }

/-- Witness for C10 at the stub plugin. -/
theorem C10_lifecycle_flag_witness :
    c10State.plugin = some stubGeneralPlugin ∧
    LifecycleOutcomes c10State stubGeneralPlugin :=
  ⟨rfl, C10_lifecycle_flag c10State stubGeneralPlugin rfl⟩

/-! ## Claim C8 -/

/-- C8: the boolean getters answer true exactly when the resolved value
is one of the tokens true/1/yes/on in any letter case; an absent key
(and hence the empty string, "false", "0" or any other value) gives
false — for `Config.GetBool` over the global config and for
`GetConfigBool` over environment-variable configuration. -/
theorem C8_bool_getters :
    (∀ cfg key v, Config.GetConfigValue cfg key = some v →
      (Config.GetBool cfg key = true ↔
        (strLower v = "true" ∨ strLower v = "1" ∨ strLower v = "yes" ∨ strLower v = "on"))) ∧
    (∀ cfg key, Config.GetConfigValue cfg key = none → Config.GetBool cfg key = false) ∧
    (∀ env pluginType key,
      EnvConfig.GetConfigBool env pluginType key = true ↔
        (strLower (EnvConfig.GetConfigOptional env pluginType key) = "true" ∨
         strLower (EnvConfig.GetConfigOptional env pluginType key) = "1" ∨
         strLower (EnvConfig.GetConfigOptional env pluginType key) = "yes" ∨
         strLower (EnvConfig.GetConfigOptional env pluginType key) = "on")) := by
  refine ⟨?_, ?_, ?_⟩
  · intro cfg key v h
    simp [Config.GetBool, h, Config.boolTokens]
    tauto
  · intro cfg key h
    simp [Config.GetBool, h]
  · intro env pluginType key
    simp [EnvConfig.GetConfigBool, Config.boolTokens]
    tauto

/-- A global config whose plugin section holds a mixed-case truthy
flag. -/
def c8Cfg : Option Config.ConfigMap :=
  some [("plugin_config", .obj [("flag", .str "YeS")])]

/-- Witness for C8 at the mixed-case value "YeS". -/
theorem C8_bool_getters_witness :
    Config.GetConfigValue c8Cfg "flag" = some "YeS" ∧
    (Config.GetBool c8Cfg "flag" = true ↔
      (strLower "YeS" = "true" ∨ strLower "YeS" = "1" ∨
       strLower "YeS" = "yes" ∨ strLower "YeS" = "on")) :=
  ⟨rfl, C8_bool_getters.1 c8Cfg "flag" "YeS" rfl⟩

/-! ## Claim C4 -/

/-- C4 (amended): the typed getters over the global config search the
`plugin_config` section, then the `server_config` section, returning
the first string value found — and nothing else: a key present only at
the raw top-level of the configuration map is not found (unlike what
the claim states).  `GetOrDefault`, `GetBool`, `GetInt` are built on
this lookup and give their not-found answers exactly when it misses. -/
theorem C4_value_lookup_precedence :
    (∀ cfg key v sec, jGet cfg "plugin_config" = some (.obj sec) →
      jGet sec key = some (.str v) →
      Config.GetConfigValue (some cfg) key = some v) ∧
    (∀ cfg key v, Config.sectionValue (some cfg) "plugin_config" key = none →
      Config.sectionValue (some cfg) "server_config" key = some v →
      Config.GetConfigValue (some cfg) key = some v) ∧
    (∀ cfg key v, Config.sectionValue (some cfg) "plugin_config" key = none →
      Config.sectionValue (some cfg) "server_config" key = none →
      jGet cfg key = some (.str v) →
      Config.GetConfigValue (some cfg) key = none) ∧
    (∀ cfg key d, Config.GetOrDefault cfg key d = (Config.GetConfigValue cfg key).getD d) ∧
    (∀ cfg key, Config.GetConfigValue cfg key = none →
      Config.GetBool cfg key = false ∧
      Config.GetInt cfg key = .error ("configuration '" ++ key ++ "' not found")) := by
  refine ⟨?_, ?_, ?_, ?_, ?_⟩
  · intro cfg key v sec h1 h2
    simp [Config.GetConfigValue, Config.sectionValue, h1, h2]
  · intro cfg key v h1 h2
    simp [Config.GetConfigValue, h1, h2]
  · intro cfg key v h1 h2 _
    simp [Config.GetConfigValue, h1, h2]
  · intro cfg key d
    cases h : Config.GetConfigValue cfg key <;> simp [Config.GetOrDefault, h]
  · intro cfg key h
    simp [Config.GetBool, Config.GetInt, h]

/-- A config whose only binding is a raw top-level string. -/
def c4TopLevel : Config.ConfigMap := [("mykey", .str "v")]

/-- Counterexample to C4 as stated: the key is present at the raw
top-level with a string value, yet the getter family reports not-found
— the top-level is never consulted. -/
theorem C4_toplevel_not_consulted :
    jGet c4TopLevel "mykey" = some (.str "v") ∧
    Config.GetConfigValue (some c4TopLevel) "mykey" = none ∧
    Config.GetOrDefault (some c4TopLevel) "mykey" "fallback" = "fallback" :=
  ⟨rfl, rfl, rfl⟩

/-- A config with both recognized sections populated. -/
def c4Cfg : Config.ConfigMap :=
  [("plugin_config", .obj [("pk", .str "pv")]),
   ("server_config", .obj [("sk", .str "sv")])]

/-- Witness for C4 at a two-section config: a plugin-section hit and a
server-section fallback. -/
theorem C4_value_lookup_precedence_witness :
    jGet c4Cfg "plugin_config" = some (.obj [("pk", .str "pv")]) ∧
    Config.GetConfigValue (some c4Cfg) "pk" = some "pv" ∧
    Config.sectionValue (some c4Cfg) "plugin_config" "sk" = none ∧
    Config.GetConfigValue (some c4Cfg) "sk" = some "sv" :=
  ⟨rfl, C4_value_lookup_precedence.1 c4Cfg "pk" "pv" _ rfl rfl, rfl,
   C4_value_lookup_precedence.2.1 c4Cfg "sk" "sv" rfl rfl⟩

/-! ## Claim C7 -/

/-- Replacing one binding leaves every other name's lookup alone. -/
theorem assocGet_set_ne (m : List (String × String)) (k k2 v : String) (h : k ≠ k2) :
    assocGet (assocSet m k v) k2 = assocGet m k2 := by
  induction m with
  | nil => simp [assocSet, assocGet, h]
  | cons kv rest ih =>
    by_cases h1 : kv.1 = k <;> by_cases h2 : kv.1 = k2 <;>
      simp_all [assocSet, assocGet]

/-- The env-var loop never disturbs a variable that currently has a
non-empty value. -/
theorem getenv_applyItems_nonempty (pluginType : String)
    (items : List Yaml.PluginConfigItem) :
    ∀ (env : EnvConfig.EnvMap) (name : String), EnvConfig.getenv env name ≠ "" →
      EnvConfig.getenv (Yaml.applyConfigItems pluginType items env) name =
        EnvConfig.getenv env name := by
  induction items with
  | nil => intro env name _; rfl
  | cons item rest ih =>
    intro env name h
    unfold Yaml.applyConfigItems
    dsimp only
    by_cases hev : EnvConfig.getenv env (EnvConfig.envVarName pluginType item.name) = ""
    · have hne : EnvConfig.envVarName pluginType item.name ≠ name := by
        intro hEq
        rw [hEq] at hev
        exact h hev
      have hpres : EnvConfig.getenv
          (EnvConfig.setenv env (EnvConfig.envVarName pluginType item.name) item.value) name =
          EnvConfig.getenv env name := by
        unfold EnvConfig.getenv EnvConfig.setenv
        rw [assocGet_set_ne _ _ _ _ hne]
      rw [if_pos hev]
      rw [ih _ name (by rw [hpres]; exact h)]
      exact hpres
    · rw [if_neg hev]
      exact ih env name h

/-- The loader uses the first definition whose type folds equal. -/
theorem yaml_load_first_match (pluginType : String) (post : List Yaml.PluginDefinition)
    (p : Yaml.PluginDefinition) (env : EnvConfig.EnvMap) :
    ∀ pre, (∀ q ∈ pre, Yaml.eqFold q.type pluginType = false) →
      Yaml.eqFold p.type pluginType = true →
      Yaml.LoadConfigAndSetEnvVars pluginType (pre ++ p :: post) env =
        Yaml.applyConfigItems pluginType p.config env := by
  intro pre
  induction pre with
  | nil =>
    intro _ hp
    simp [Yaml.LoadConfigAndSetEnvVars, hp]
  | cons q rest ih =>
    intro hpre hp
    have hq := hpre q (by simp)
    have hstep : Yaml.LoadConfigAndSetEnvVars pluginType ((q :: rest) ++ p :: post) env =
        Yaml.LoadConfigAndSetEnvVars pluginType (rest ++ p :: post) env := by
      simp [Yaml.LoadConfigAndSetEnvVars, hq]
    rw [hstep]
    exact ih (fun r hr => hpre r (List.mem_cons_of_mem _ hr)) hp

/-- C7 (amended): loading the YAML config for a plugin type uses the
first definition whose type matches case-insensitively and, for each
config item, sets `UPPER(type)_UPPER(name)` to the item's value only if
that variable currently reads as empty — so a pre-existing NON-EMPTY
environment value always wins over the file value, while a variable
that is set but empty is overwritten (contrary to the claim's
unqualified "not already set"). -/
theorem C7_load_config_env_precedence (pluginType : String)
    (pre post : List Yaml.PluginDefinition) (p : Yaml.PluginDefinition)
    (env : EnvConfig.EnvMap)
    (hpre : ∀ q ∈ pre, Yaml.eqFold q.type pluginType = false)
    (hp : Yaml.eqFold p.type pluginType = true) :
    Yaml.LoadConfigAndSetEnvVars pluginType (pre ++ p :: post) env =
      Yaml.applyConfigItems pluginType p.config env ∧
    ∀ name, EnvConfig.getenv env (EnvConfig.envVarName pluginType name) ≠ "" →
      EnvConfig.getenv (Yaml.LoadConfigAndSetEnvVars pluginType (pre ++ p :: post) env)
          (EnvConfig.envVarName pluginType name) =
        EnvConfig.getenv env (EnvConfig.envVarName pluginType name) := by
  have hfirst := yaml_load_first_match pluginType post p env pre hpre hp
  refine ⟨hfirst, ?_⟩
  intro name h
  rw [hfirst]
  exact getenv_applyItems_nonempty pluginType p.config env _ h

/-- The storage plugin definition of the claim's example. -/
def c7Def : Yaml.PluginDefinition :=
  { type := "storage", enabled := true, path := ""
    config := [{ name := "bucket", value := "file-value" }] }

/-- Counterexample to C7 as stated: `STORAGE_BUCKET` is already set —
to the empty string — yet the loader overwrites it with the file value,
so the pre-existing environment value does not win. -/
theorem C7_empty_env_var_overwritten :
    assocGet [("STORAGE_BUCKET", "")] "STORAGE_BUCKET" = some "" ∧
    EnvConfig.getenv
        (Yaml.LoadConfigAndSetEnvVars "storage" [c7Def] [("STORAGE_BUCKET", "")])
        "STORAGE_BUCKET" = "file-value" :=
  ⟨rfl, by decide⟩

/-- The environment of the claim's example, with a non-empty host
value. -/
def c7EnvPre : EnvConfig.EnvMap := [("STORAGE_BUCKET", "env-value")]

/-- Witness for C7 at the claim's own example: `STORAGE_BUCKET` holds
"env-value", the file offers "file-value", and the environment wins. -/
theorem C7_load_config_env_precedence_witness :
    Yaml.eqFold c7Def.type "storage" = true ∧
    EnvConfig.getenv c7EnvPre (EnvConfig.envVarName "storage" "bucket") ≠ "" ∧
    EnvConfig.getenv (Yaml.LoadConfigAndSetEnvVars "storage" [c7Def] c7EnvPre)
        (EnvConfig.envVarName "storage" "bucket") =
      EnvConfig.getenv c7EnvPre (EnvConfig.envVarName "storage" "bucket") :=
  ⟨by decide, by decide,
   (C7_load_config_env_precedence "storage" [] [] c7Def c7EnvPre
     (by simp) (by decide)).2 "bucket" (by decide)⟩

/-! ## Claim C2 -/

/-- C2 (amended): with a plugin registered, a NULL required argument is
rejected with the documented "cannot be null" failure before the plugin
is invoked — the result is the same for every registered plugin and the
state is untouched.  A non-null empty string is NOT rejected (contrary
to the claim): only the pointer is checked, and the empty string is
handed to the plugin. -/
theorem C2_null_argument_rejection (st : Auth.AuthState) (p : Auth.AuthPlugin)
    (h : st.registered = some p) : NullArgOutcomes st := by
  have hget := auth_get_some st p h
  unfold NullArgOutcomes
  repeat' apply And.intro
  all_goals intros
  all_goals
    simp [Auth.check_user_access, Auth.create_user, Auth.get_user_details,
      Auth.get_user_details_by_email, Auth.get_user_groups, Auth.search_users,
      Auth.delete_user, Auth.get_user_permissions, Auth.create_oauth_client,
      Auth.get_oauth_client, Auth.update_oauth_client, Auth.delete_oauth_client,
      Auth.list_user_authorized_clients, Auth.revoke_user_client_authorization,
      hget]

/-- A state with the stub plugin eagerly registered. -/
def regStubState : Auth.AuthState :=
  { registered := some stubAuthPlugin, pluginInitializer := none, initCalls := 0, cfg := none }

/-- Counterexample to C2 as stated: the empty (non-null) user id passes
the null check, the registered plugin IS invoked, and the call succeeds
with the plugin's answer instead of returning an invalid-input
failure. -/
theorem C2_empty_string_not_rejected :
    (Auth.check_user_access regStubState (some "") (some "resource") (some "read")).1 =
      newSuccessJSONResult (.bool true) ∧
    ((Auth.check_user_access regStubState (some "") (some "resource") (some "read")).1).success
      = true :=
  ⟨rfl, rfl⟩

/-- Witness for C2 at the stub plugin. -/
theorem C2_null_argument_rejection_witness :
    regStubState.registered = some stubAuthPlugin ∧ NullArgOutcomes regStubState :=
  ⟨rfl, C2_null_argument_rejection regStubState stubAuthPlugin rfl⟩

/-! ## Claim C3 -/

/-- C3 (amended): a malformed (or empty, or NULL) config blob makes
`initialize_with_config` report false with the config map and registry
exactly as before; malformed JSON in `create_user` with a registered
plugin yields the parse failure with the state exactly as before; and
`create_user` never changes the config map — but when the call instead
finds an empty slot with a succeeding lazy initializer, the registry
does change (the lazy registration happens before the parse failure is
returned), contrary to the claim's unconditional "registry unchanged". -/
theorem C3_malformed_json_failures :
    (∀ st, Auth.initialize_with_config st none = (false, st)) ∧
    (∀ st s, jsonParse s = none → Auth.initialize_with_config st (some s) = (false, st)) ∧
    (∀ st p s, st.registered = some p → jsonParse s = none →
      Auth.create_user st (some s) =
        (newErrorResult "Failed to parse request JSON: invalid character", st)) ∧
    (∀ st x, ((Auth.create_user st x).2).cfg = st.cfg) := by
  refine ⟨?_, ?_, ?_, ?_⟩
  · intro st
    simp [Auth.initialize_with_config, Config.SetConfigFromJSON, goString]
  · intro st s h
    by_cases hs : s = "" <;>
      simp [Auth.initialize_with_config, Config.SetConfigFromJSON, goString, h, hs]
  · intro st p s hreg h
    have hget := auth_get_some st p hreg
    simp [Auth.create_user, hget, goString, h]
  · intro st x
    have hcfg := auth_get_cfg st
    unfold Auth.create_user
    rcases hg : Auth.GetRegisteredPlugin st with ⟨a, b⟩
    rw [hg] at hcfg
    cases a
    · simpa using hcfg
    · cases x
      · simpa using hcfg
      · dsimp only
        repeat' split
        all_goals simpa using hcfg

/-- A state with an empty slot and a factory that succeeds with the
stub plugin. -/
def lazyStubState : Auth.AuthState :=
  { registered := none, pluginInitializer := some (fun _ => (some stubAuthPlugin, none))
    initCalls := 0, cfg := none }

/-- Counterexample to C3 as stated: malformed JSON in `create_user`
does yield a failure, but the registry slot went from empty to
populated during the very same call (lazy initialization fired before
the parse), so the registry state is not what it was before the call. -/
theorem C3_lazy_init_changes_registry :
    lazyStubState.registered = none ∧
    ((Auth.create_user lazyStubState (some "not json")).1).success = false ∧
    ((Auth.create_user lazyStubState (some "not json")).2).registered.isSome = true :=
  ⟨rfl, rfl, rfl⟩

/-- Witness for C3: the empty string and a malformed blob both make
`initialize_with_config` fail with state untouched, and `create_user`
on a registered plugin rejects malformed JSON with state untouched. -/
theorem C3_malformed_json_failures_witness :
    jsonParse "not json" = none ∧
    Auth.initialize_with_config regStubState (some "not json") = (false, regStubState) ∧
    Auth.create_user regStubState (some "not json") =
      (newErrorResult "Failed to parse request JSON: invalid character", regStubState) :=
  ⟨rfl,
   C3_malformed_json_failures.2.1 regStubState "not json" rfl,
   C3_malformed_json_failures.2.2.1 regStubState stubAuthPlugin "not json" rfl rfl⟩

/-! ## Claim C9 -/

/-- The claim's set request. -/
def c9Input : String := "\x7b\"key\": \"k\", \"value\": \"v\", \"ttl\": 60\x7d"

/-- The provider state after the set. -/
def c9AfterSet : List (String × String) :=
  (Cache.cache_set (some mapCache) [] c9Input).2

/-- The provider state after the delete. -/
def c9AfterDelete : List (String × String) :=
  (Cache.cache_delete (some mapCache) c9AfterSet "k").2

/-- C9: with the key-value map provider registered,
`cache_set(\x7bkey:"k", value:"v", ttl:60\x7d)` succeeds, `cache_get("k")`
returns `"v"` (the host receives the JSON text quote-v-quote, the
encoding of the stored value v), and after `cache_delete("k")`,
`cache_exists("k")` returns false. -/
theorem C9_cache_round_trip :
    Cache.ParseCacheSetRequest c9Input = .ok { key := "k", value := "v", ttl := some 60 } ∧
    (Cache.cache_set (some mapCache) [] c9Input).1 = Cache.okPayload ∧
    (Cache.cache_get (some mapCache) c9AfterSet "k").1 = "\"v\"" ∧
    (Cache.cache_delete (some mapCache) c9AfterSet "k").1 = "true" ∧
    (Cache.cache_exists (some mapCache) c9AfterDelete "k").1 = "false" :=
  ⟨rfl, rfl, rfl, rfl, rfl⟩

/-! ## Claim C6 -/

/-- An error payload is well-shaped. -/
theorem wellShaped_err (m : String) : Cache.WellShaped (Cache.errPayload m) :=
  Or.inl ⟨m, rfl⟩

/-- The success payload is well-shaped. -/
theorem wellShaped_ok : Cache.WellShaped Cache.okPayload :=
  Or.inr (Or.inl (Or.inl rfl))

/-- The marshaled encoding of a string value is well-shaped. -/
theorem wellShaped_encodeStr (v : String) : Cache.WellShaped (jsonEncode (.str v)) :=
  Or.inr (Or.inl (Or.inr (Or.inl ⟨v, rfl⟩)))

/-- The marshaled encoding of a string map is well-shaped. -/
theorem wellShaped_encodeStats (kvs : List (String × String)) :
    Cache.WellShaped (jsonEncode (.obj (kvs.map fun kv => (kv.1, .str kv.2)))) :=
  Or.inr (Or.inl (Or.inr (Or.inr (Or.inl ⟨kvs, rfl⟩))))

/-- A value that passed `json.Valid` is well-shaped as a raw payload. -/
theorem wellShaped_valid (s : String) (h : jsonValid s = true) : Cache.WellShaped s :=
  Or.inr (Or.inl (Or.inr (Or.inr (Or.inr h))))

/-- The `null` sentinel is well-shaped. -/
theorem wellShaped_null : Cache.WellShaped "null" :=
  Or.inr (Or.inr (Or.inl rfl))

/-- The `true` sentinel is well-shaped. -/
theorem wellShaped_true : Cache.WellShaped "true" :=
  Or.inr (Or.inr (Or.inr (Or.inl rfl)))

/-- The `false` sentinel is well-shaped. -/
theorem wellShaped_false : Cache.WellShaped "false" :=
  Or.inr (Or.inr (Or.inr (Or.inr (Or.inl rfl))))

/-- A decimal integer is well-shaped. -/
theorem wellShaped_int (n : Int) : Cache.WellShaped (toString n) :=
  Or.inr (Or.inr (Or.inr (Or.inr (Or.inr ⟨n, rfl⟩))))

/-- Every character `Nat.toDigitsCore` emits in base 10 is a decimal
digit (given the accumulator already holds only digits). -/
theorem toDigitsCore_digits (fuel : Nat) :
    ∀ (n : Nat) (ds : List Char), (∀ c ∈ ds, c.isDigit = true) →
      ∀ c ∈ Nat.toDigitsCore 10 fuel n ds, c.isDigit = true := by
  induction fuel with
  | zero =>
    intro n ds hds c hc
    exact hds c hc
  | succ fuel ih =>
    intro n ds hds c hc
    have hdig : (Nat.digitChar (n % 10)).isDigit = true := by
      have h10 : n % 10 < 10 := Nat.mod_lt _ (by decide)
      set k := n % 10 with hk
      interval_cases k <;> decide
    unfold Nat.toDigitsCore at hc
    dsimp only at hc
    by_cases hz : n / 10 = 0
    · rw [if_pos hz] at hc
      rcases List.mem_cons.mp hc with rfl | h
      · exact hdig
      · exact hds c h
    · rw [if_neg hz] at hc
      refine ih (n / 10) _ ?_ c hc
      intro c2 hc2
      rcases List.mem_cons.mp hc2 with rfl | h2
      · exact hdig
      · exact hds c2 h2

/-- Every character of `Nat.repr` is a decimal digit. -/
theorem natRepr_digits (n : Nat) : ∀ c ∈ (Nat.repr n).data, c.isDigit = true := by
  intro c hc
  have hd : (Nat.repr n).data = Nat.toDigitsCore 10 (n + 1) n [] := rfl
  rw [hd] at hc
  exact toDigitsCore_digits (n + 1) n [] (by intro c2 hc2; cases hc2) c hc

/-- Every character of an `Int` rendered by `toString` (the model of
`fmt.Sprintf` with `%d`) is a decimal digit or the minus sign. -/
theorem intToString_chars (n : Int) :
    ∀ c ∈ (toString n).data, c.isDigit = true ∨ c = '-' := by
  intro c hc
  cases n with
  | ofNat m =>
    have hr : (toString (Int.ofNat m) : String) = Nat.repr m := rfl
    rw [hr] at hc
    exact Or.inl (natRepr_digits m c hc)
  | negSucc m =>
    have hr : (toString (Int.negSucc m) : String) = "-" ++ Nat.repr (m + 1) := rfl
    rw [hr, String.data_append] at hc
    rcases List.mem_append.mp hc with h | h
    · have hm : ("-" : String).data = ['-'] := rfl
      rw [hm] at h
      rcases List.mem_cons.mp h with rfl | h2
      · exact Or.inr rfl
      · cases h2
    · exact Or.inl (natRepr_digits (m + 1) c h)

/-- The shape classification is not vacuous: the one-character string
"x" is none of the shapes — not the error template, not a success
payload (not the success object, no marshal of a string or of a string
map, not valid JSON), and not a sentinel (not a literal, and every
decimal rendering consists of digits and the minus sign only). -/
theorem cacheReply_not_all_strings : ¬ Cache.WellShaped "x" := by
  intro h
  unfold Cache.WellShaped Cache.isErrorReply Cache.isSuccessReply Cache.isSentinelReply at h
  rcases h with ⟨m, hm⟩ | (hok | ⟨v, hv⟩ | ⟨kvs, hk⟩ | hvalid) | (h1 | h2 | h3 | ⟨n, hn⟩)
  · have hl := congrArg String.length hm
    simp only [Cache.errPayload, String.length_append] at hl
    rw [show ("x" : String).length = 1 from rfl,
        show (String.singleton lbrace).length = 1 from rfl,
        show ("\"error\": \"" : String).length = 10 from rfl,
        show ("\"" : String).length = 1 from rfl,
        show (String.singleton rbrace).length = 1 from rfl] at hl
    omega
  · exact absurd hok (by decide)
  · have hl := congrArg String.length hv
    simp only [jsonEncode, encStr, String.length_append] at hl
    rw [show ("x" : String).length = 1 from rfl,
        show ("\"" : String).length = 1 from rfl] at hl
    omega
  · have hl := congrArg String.length hk
    simp only [jsonEncode, String.length_append] at hl
    rw [show ("x" : String).length = 1 from rfl,
        show (String.singleton lbrace).length = 1 from rfl,
        show (String.singleton rbrace).length = 1 from rfl] at hl
    omega
  · exact absurd hvalid (by decide)
  · exact absurd h1 (by decide)
  · exact absurd h2 (by decide)
  · exact absurd h3 (by decide)
  · have hmem : 'x' ∈ (toString n).data := by
      rw [← hn]
      decide
    rcases intToString_chars n 'x' hmem with hd | hd
    · exact absurd hd (by decide)
    · exact absurd hd (by decide)

/-- C6: whatever the registered provider does (any behavior, any
outcome, including its absence), the string each cache boundary call
hands the host is one of: a structured error payload with a message, a
structured success payload (the success object, the marshal of a string
or of a string map, or a raw value that passed `json.Valid`), or one of
the scalar sentinels (null/true/false/decimal count) — and this shape
classification excludes strings outside those forms, witnessed by
`¬ Cache.WellShaped "x"`, so the enumeration does rule shapes out. -/
theorem C6_cache_reply_shapes {σ : Type} (provider : Option (Cache.CacheProvider σ))
    (s : σ) (key input pat : String) :
    (Cache.WellShaped (Cache.cache_get provider s key).1 ∧
     Cache.WellShaped (Cache.cache_set provider s input).1 ∧
     Cache.WellShaped (Cache.cache_delete provider s key).1 ∧
     Cache.WellShaped (Cache.cache_delete_pattern provider s pat).1 ∧
     Cache.WellShaped (Cache.cache_exists provider s key).1 ∧
     Cache.WellShaped (Cache.cache_set_multiple provider s input).1 ∧
     Cache.WellShaped (Cache.cache_stats provider s).1) ∧
    ¬ Cache.WellShaped "x" := by
  refine ⟨⟨?_, ?_, ?_, ?_, ?_, ?_, ?_⟩, cacheReply_not_all_strings⟩
  · cases provider with
    | none => exact wellShaped_err _
    | some p =>
      dsimp only [Cache.cache_get]
      repeat' split
      all_goals first
        | exact wellShaped_null
        | (rename_i hv; exact wellShaped_valid _ hv)
        | exact wellShaped_encodeStr _
  · cases provider with
    | none => exact wellShaped_err _
    | some p =>
      dsimp only [Cache.cache_set]
      repeat' split
      all_goals first
        | exact wellShaped_err _
        | exact wellShaped_ok
  · cases provider with
    | none => exact wellShaped_err _
    | some p =>
      dsimp only [Cache.cache_delete]
      repeat' split
      all_goals first
        | exact wellShaped_err _
        | exact wellShaped_true
        | exact wellShaped_false
  · cases provider with
    | none => exact wellShaped_err _
    | some p =>
      dsimp only [Cache.cache_delete_pattern]
      repeat' split
      all_goals first
        | exact wellShaped_err _
        | exact wellShaped_int _
  · cases provider with
    | none => exact wellShaped_err _
    | some p =>
      dsimp only [Cache.cache_exists]
      repeat' split
      all_goals first
        | exact wellShaped_err _
        | exact wellShaped_true
        | exact wellShaped_false
  · cases provider with
    | none => exact wellShaped_err _
    | some p =>
      dsimp only [Cache.cache_set_multiple]
      repeat' split
      all_goals first
        | exact wellShaped_err _
        | exact wellShaped_ok
  · cases provider with
    | none => exact wellShaped_err _
    | some p =>
      dsimp only [Cache.cache_stats]
      repeat' split
      all_goals first
        | exact wellShaped_err _
        | exact wellShaped_encodeStats _

/-! ## Claim C1 -/

/-- C1 (amended): with no plugin instance registered and no lazy
initializer invocation succeeding, every boundary function of every
contract kind returns its no-plugin answer and nothing else: the
FFIResult-returning functions fail with "No plugin registered"; the
boolean-returning ones return false and the general int-returning ones
0; `generate_file_url` returns NULL; the cache string-returning shims
return the structured `Cache provider not set` error; and the
provider-name scalars return their per-kind sentinels — "unknown"
(auth), "Unknown Go Plugin" (storage), "Unknown Cache Provider"
(cache), "Unknown Plugin" / "0.0.0" (general) — not one uniform
"unknown" as the claim put it. -/
theorem C1_no_plugin_outcomes (ast : Auth.AuthState) (sst : Storage.StorageState)
    (gst : General.GeneralState)
    (ha : Auth.NoPlugin ast) (hs : Storage.NoPlugin sst) (hg : gst.plugin = none) :
    NoPluginOutcomes ast sst gst := by
  have ha' := auth_get_noPlugin ast ha
  have hs' := storage_get_noPlugin sst hs
  have hcs1 : cString "unknown" = some "unknown" := rfl
  have hcs2 : cString "Unknown Go Plugin" = some "Unknown Go Plugin" := rfl
  have hinit : ∀ x, (Auth.initialize_with_config ast x).1 = false := by
    intro x
    unfold Auth.initialize_with_config
    cases hc : Config.SetConfigFromJSON ast.cfg (goString x) with
    | error e => simp [hc]
    | ok c =>
      have hup := auth_get_noPlugin { ast with cfg := c } ⟨ha.1, ha.2⟩
      simp [hc, hup]
  unfold NoPluginOutcomes
  refine ⟨hinit, ?_⟩
  repeat' apply And.intro
  all_goals intros
  all_goals
    simp [Auth.check_user_access, Auth.create_user, Auth.get_user_details,
      Auth.get_user_details_by_email, Auth.get_plugin_info, Auth.provider_name,
      Auth.health_check, Auth.validate_user, Auth.get_user_groups, Auth.search_users,
      Auth.delete_user, Auth.get_user_permissions, Auth.cleanup_plugin,
      Auth.create_oauth_client, Auth.get_oauth_client, Auth.update_oauth_client,
      Auth.delete_oauth_client, Auth.list_oauth_clients,
      Auth.list_user_authorized_clients, Auth.revoke_user_client_authorization,
      Storage.store_file_with_content_type, Storage.store_file, Storage.retrieve_file,
      Storage.delete_file, Storage.file_exists, Storage.generate_file_url,
      Storage.provider_name, Storage.init_plugin, Storage.cleanup_plugin,
      Cache.initializePlugin, Cache.cache_get, Cache.cache_set, Cache.cache_delete,
      Cache.cache_delete_pattern, Cache.cache_exists, Cache.cache_set_multiple,
      Cache.cache_stats, Cache.provider_name,
      General.get_plugin_name, General.get_plugin_version, General.init_plugin,
      General.cleanup_plugin, General.initialize_with_config, General.eventShim,
      General.twoFieldShim, General.on_environment_created, General.on_environment_updated,
      General.on_environment_deleted, General.on_organization_created,
      General.on_organization_updated, General.on_organization_deleted,
      General.on_user_created, General.on_user_updated, General.on_user_deleted,
      General.on_user_assigned_to_organization, General.on_user_removed_from_organization,
      General.on_user_assigned_to_environment, General.on_user_removed_from_environment,
      General.on_user_avatar_uploaded, General.on_oauth_client_created,
      General.on_oauth_client_updated, General.on_oauth_client_deleted,
      General.on_user_client_authorization_revoked,
      ha', hs', hg, hcs1, hcs2]

/-- Counterexample to C1 as stated: with nothing registered, the
storage `provider_name` returns the string "Unknown Go Plugin", not the
claimed "unknown" sentinel. -/
theorem C1_storage_provider_name_sentinel :
    (Storage.provider_name emptyStorageState).1 = some "Unknown Go Plugin" ∧
    (Storage.provider_name emptyStorageState).1 ≠ some "unknown" :=
  ⟨rfl, by decide⟩

/-- Witness for C1 at the process-start states. -/
theorem C1_no_plugin_outcomes_witness :
    Auth.NoPlugin emptyAuthState ∧ Storage.NoPlugin emptyStorageState ∧
    emptyGeneralState.plugin = none ∧
    NoPluginOutcomes emptyAuthState emptyStorageState emptyGeneralState := by
  have hA : Auth.NoPlugin emptyAuthState := ⟨rfl, fun f h => nomatch h⟩
  have hS : Storage.NoPlugin emptyStorageState := ⟨rfl, fun f h => nomatch h⟩
  exact ⟨hA, hS, rfl, C1_no_plugin_outcomes _ _ _ hA hS rfl⟩

end Relm
